import Mathlib

/-!
# Iterator concepts of stl2 (include/stl2/concepts/iterator.hpp, include/stl2/utility.hpp)

The headers are compile-time machinery: type traits resolved by template
specialisation and boolean concepts over types, with a handful of function
bodies (exchange, swap, iter_move, iter_swap2).  The embedding has four layers.

* `Ty`, `ClassInfo`, `Env`: the C++ types the traits are asked about and the
  facts a compiler knows about them (nested typedefs and operator result types
  of class types, results of the standard type traits, and the concepts of
  `stl2/concepts/foundational.hpp`, which is included but not part of the
  sources at hand and is therefore a parameter of the environment).
* the traits and concepts of `iterator.hpp` / `utility.hpp`, translated
  declaration by declaration as computable functions into `Option Ty`
  (an absent `::type` member is `none`) and `Bool`.
* the bodies of exchange, swap and iter_swap2 as functions on a store of
  objects, with the state a move leaves behind as a parameter.
* theorems about those functions.
-/

namespace stl2

/-! ## Types -/

/-- The six iterator tag structs declared in iterator.hpp, lines 291-301. -/
inductive Tag where
  | weak_input_iterator_tag
  | input_iterator_tag
  | forward_iterator_tag
  | bidirectional_iterator_tag
  | random_access_iterator_tag
  | contiguous_iterator_tag
  deriving DecidableEq, Repr

/-- Top-level cv-qualification of a type. -/
inductive Qual where
  | c
  | v
  | cv
  deriving DecidableEq, Repr

/-- The C++ types of the model.  Integral types are given by signedness and
conversion rank (0 char-sized, 1 short, 2 int, 3 long, 4 long long); class
types other than the six tags are identified by a number and described by the
environment. -/
inductive Ty where
  | void
  | nullptr_t
  | integral (isSigned : Bool) (rank : Nat)
  | floating
  | func
  | tag (t : Tag)
  | cls (id : Nat)
  | ptr (pointee : Ty)
  | lref (t : Ty)
  | rref (t : Ty)
  | qual (q : Qual) (t : Ty)
  deriving DecidableEq, Repr

namespace Ty

/-- The type int. -/
def int : Ty := integral true 2

/-- The type long. -/
def long : Ty := integral true 3

/-- The type std::ptrdiff_t (long on the LP64 targets the library is built for). -/
def ptrdiff_t : Ty := integral true 3

end Ty

open Ty

/-- Whether a qualification includes const. -/
def Qual.hasConst : Qual → Bool
  | .c => true
  | .v => false
  | .cv => true

/-- Whether a qualification includes volatile. -/
def Qual.hasVolatile : Qual → Bool
  | .c => false
  | .v => true
  | .cv => true

/-! ## Standard type traits (header type_traits) -/

/-- Trait std::remove_cv_t: drops the top-level cv-qualifiers. -/
def remove_cv : Ty → Ty
  | qual _ t => remove_cv t
  | t => t

/-- Trait std::remove_reference_t. -/
def remove_reference : Ty → Ty
  | lref t => t
  | rref t => t
  | t => t

/-- Trait std::is_reference. -/
def is_reference : Ty → Bool
  | lref _ => true
  | rref _ => true
  | _ => false

/-- Trait std::is_void: void with any cv-qualification. -/
def is_void (t : Ty) : Bool :=
  match remove_cv t with
  | void => true
  | _ => false

/-- Trait std::is_function. -/
def is_function (t : Ty) : Bool :=
  match remove_cv t with
  | func => true
  | _ => false

/-- Trait std::is_object: every type that is not a function, a reference or
(cv) void. -/
def is_object (t : Ty) : Bool :=
  !(is_function t) && !(is_reference (remove_cv t)) && !(is_void t)

/-- Trait std::is_integral: an integral type with any cv-qualification. -/
def is_integral (t : Ty) : Bool :=
  match remove_cv t with
  | integral _ _ => true
  | _ => false

/-- Arithmetic types: integral or floating point, any cv-qualification. -/
def is_arithmetic (t : Ty) : Bool :=
  match remove_cv t with
  | integral _ _ => true
  | floating => true
  | _ => false

/-- Scalar types: arithmetic, pointer and nullptr_t, any cv-qualification. -/
def is_scalar (t : Ty) : Bool :=
  match remove_cv t with
  | integral _ _ => true
  | floating => true
  | ptr _ => true
  | nullptr_t => true
  | _ => false

/-- Whether the top-level qualification of a type includes const. -/
def is_const : Ty → Bool
  | qual q t => q.hasConst || is_const t
  | _ => false

/-- Whether the top-level qualification of a type includes volatile. -/
def is_volatile : Ty → Bool
  | qual q t => q.hasVolatile || is_volatile t
  | _ => false

/-- Alias meta::detail::uncvref_t: remove_cv_t of remove_reference_t. -/
def uncvref_t (t : Ty) : Ty := remove_cv (remove_reference t)

/-- Trait std::decay_t: reference and cv removed, a function type becomes a
pointer to it (array types are not part of the model). -/
def decay_t (t : Ty) : Ty :=
  let u := remove_reference t
  if is_function u then ptr u else remove_cv u

/-- Trait std::make_unsigned: the unsigned integral type of the same rank,
keeping the cv-qualification; it has no member type for a non-integral type. -/
def make_unsigned : Ty → Option Ty
  | integral _ r => some (integral false r)
  | qual q t => (make_unsigned t).map (qual q)
  | _ => none

/-- The type const T, as in the declarator const T&: const is ignored on
references and functions and merged into an existing qualification. -/
def add_const : Ty → Ty
  | lref t => lref t
  | rref t => rref t
  | func => func
  | qual .c t => qual .c t
  | qual .v t => qual .cv t
  | qual .cv t => qual .cv t
  | t => qual .c t

/-! ## What the compiler knows about the program -/

/-- The result types of the six random-access expressions of
RandomAccessIterator (iterator.hpp, lines 413-418) for an operand i and an
offset n. -/
structure RandomAccessTypes where
  plus_assign : Ty
  plus : Ty
  plus_reversed : Ty
  minus_assign : Ty
  minus : Ty
  subscript : Ty
  deriving DecidableEq, Repr

/-- Description of a class type: completeness, the base classes (direct and
indirect), the nested typedefs the traits look for, and the result types of the
operators the concepts use (none when the class has no such operator).
Operators are taken to be declared the conventional way: operator*, binary
operator-, operator+ and operator[] as const members or free functions, the
increments, decrements and compound assignments as non-const members, and none
of them volatile. -/
structure ClassInfo where
  complete : Bool
  bases : List Ty
  value_type : Option Ty
  element_type : Option Ty
  difference_type : Option Ty
  distance_type : Option Ty
  iterator_category : Option Ty
  deref : Option Ty
  deref_noexcept : Bool
  pre_increment : Option Ty
  post_increment : Option Ty
  pre_decrement : Option Ty
  post_decrement : Option Ty
  minus : Option Ty
  random_access : Option RandomAccessTypes

/-- A class with no members at all. -/
def ClassInfo.empty : ClassInfo :=
  { complete := true, bases := [], value_type := none, element_type := none,
    difference_type := none, distance_type := none, iterator_category := none,
    deref := none, deref_noexcept := false, pre_increment := none,
    post_increment := none, pre_decrement := none, post_decrement := none,
    minus := none, random_access := none }

/-- The program environment.  `classes` describes the class types.  The
remaining fields are what iterator.hpp and utility.hpp take from elsewhere and
are parameters of the development: the concepts of
stl2/concepts/foundational.hpp (Semiregular .. Swappable; `EqualityComparable2`
is the two-type form EqualityComparable<T, U>), the standard traits
std::is_assignable, std::is_nothrow_constructible (one argument) and
std::is_nothrow_assignable, the implicit conversions that are not built into
the language for the types of the model (`converts`), and subtraction of
operands of two different types (`minus2`). -/
structure Env where
  classes : Nat → ClassInfo
  Semiregular : Ty → Bool
  Regular : Ty → Bool
  EqualityComparable : Ty → Bool
  EqualityComparable2 : Ty → Ty → Bool
  TotallyOrdered : Ty → Bool
  Movable : Ty → Bool
  Constructible : Ty → Ty → Bool
  Assignable : Ty → Ty → Bool
  Swappable : Ty → Ty → Bool
  is_assignable : Ty → Ty → Bool
  is_nothrow_constructible : Ty → Ty → Bool
  is_nothrow_assignable : Ty → Ty → Bool
  converts : Ty → Ty → Bool
  minus2 : Ty → Ty → Option Ty

/-! ## Expressions: well-formedness and type -/

/-- Lookup of a nested typedef T::name: T has to be a (possibly cv-qualified)
class type that declares it.  The tag structs declare nothing. -/
def member_type (env : Env) (sel : ClassInfo → Option Ty) : Ty → Option Ty
  | cls n => sel (env.classes n)
  | qual _ t => member_type env sel t
  | _ => none

/-- Whether a type is complete. -/
def is_complete (env : Env) : Ty → Bool
  | void => false
  | cls n => (env.classes n).complete
  | qual _ t => is_complete env t
  | _ => true

/-- Pointer arithmetic is defined for pointers to complete object types. -/
def is_complete_object (env : Env) (t : Ty) : Bool :=
  is_object t && is_complete env t

/-- Whether an expression of the given decltype is an lvalue. -/
def is_lvalue : Ty → Bool
  | lref _ => true
  | _ => false

/-- The type T& (reference collapsing; there is no reference to void). -/
def lvalue_ref (t : Ty) : Option Ty :=
  if is_void t then none else some (lref (remove_reference t))

/-- Type of the expression *e for an operand of type T (lvalue or rvalue),
none when ill-formed: a pointer to non-void gives an lvalue of the pointee, a
function decays to a pointer to itself first, a class type gives what its
operator* returns. -/
def deref_type (env : Env) : Ty → Option Ty
  | ptr t => if is_void t then none else some (lref t)
  | func => some (lref func)
  | cls n => (env.classes n).deref
  | qual q t => if q.hasVolatile && !(is_scalar t) then none else deref_type env t
  | lref t => deref_type env t
  | rref t => deref_type env t
  | _ => none

/-- Whether evaluating *e cannot throw: always for a pointer or function, and
for a class type when its operator* is declared noexcept. -/
def deref_noexcept (env : Env) : Ty → Bool
  | ptr _ => true
  | func => true
  | cls n => (env.classes n).deref_noexcept
  | qual _ t => deref_noexcept env t
  | lref t => deref_noexcept env t
  | rref t => deref_noexcept env t
  | _ => false

/-- Integral promotion: ranks below int promote to int. -/
def promote : Ty → Ty
  | integral s r => if r < 2 then integral true 2 else integral s r
  | t => t

/-- Type of a - b for two operands of the same type T, none when ill-formed. -/
def minus_type (env : Env) : Ty → Option Ty
  | ptr t => if is_complete_object env t then some ptrdiff_t else none
  | integral s r => some (promote (integral s r))
  | floating => some floating
  | cls n => (env.classes n).minus
  | qual q t => if q.hasVolatile && !(is_scalar t) then none else minus_type env t
  | lref t => minus_type env t
  | rref t => minus_type env t
  | _ => none

/-- Type of a - b for an operand a of type A and an operand b of type B. -/
def minus2_type (env : Env) (a b : Ty) : Option Ty :=
  if uncvref_t a = uncvref_t b then minus_type env a else env.minus2 a b

/-- Result type of a mutating unary operator (++i, --i) on an lvalue of type I:
an lvalue of the operand for a non-const arithmetic type or pointer to a
complete object type, the declared result for an unqualified class type. -/
def pre_step_type (env : Env) (sel : ClassInfo → Option Ty) (i : Ty) : Option Ty :=
  let o := remove_reference i
  match remove_cv o with
  | ptr t => if !(is_const o) && is_complete_object env t then some (lref o) else none
  | integral _ _ => if is_const o then none else some (lref o)
  | floating => if is_const o then none else some (lref o)
  | cls n => if o = cls n then sel (env.classes n) else none
  | _ => none

/-- Result type of i++ or i-- on an lvalue of type I: a prvalue of the
unqualified operand type for the built-in operators. -/
def post_step_type (env : Env) (sel : ClassInfo → Option Ty) (i : Ty) : Option Ty :=
  let o := remove_reference i
  match remove_cv o with
  | ptr t => if !(is_const o) && is_complete_object env t then some (ptr t) else none
  | integral s r => if is_const o then none else some (integral s r)
  | floating => if is_const o then none else some floating
  | cls n => if o = cls n then sel (env.classes n) else none
  | _ => none

/-- Type of ++i. -/
def pre_increment_type (env : Env) (i : Ty) : Option Ty :=
  pre_step_type env (fun c => c.pre_increment) i

/-- Type of i++. -/
def post_increment_type (env : Env) (i : Ty) : Option Ty :=
  post_step_type env (fun c => c.post_increment) i

/-- Type of --i. -/
def pre_decrement_type (env : Env) (i : Ty) : Option Ty :=
  pre_step_type env (fun c => c.pre_decrement) i

/-- Type of i--. -/
def post_decrement_type (env : Env) (i : Ty) : Option Ty :=
  post_step_type env (fun c => c.post_decrement) i

/-- Types of i += n, i + n, n + i, i -= n, i - n and i[n] for variables i of
type I and n of type N, none when one of the six is ill-formed (as i[n] is for
every operand that is neither a pointer nor a class). -/
def random_access_types (env : Env) (i n : Ty) : Option RandomAccessTypes :=
  let o := remove_reference i
  match remove_cv o with
  | ptr t =>
      if !(is_const o) && is_complete_object env t && is_integral (remove_reference n) then
        some { plus_assign := lref o, plus := ptr t, plus_reversed := ptr t,
               minus_assign := lref o, minus := ptr t, subscript := lref t }
      else none
  | cls k => if o = cls k then (env.classes k).random_access else none
  | _ => none

/-- Whether cv-qualification a is included in cv-qualification b. -/
def cv_le (a b : Ty) : Bool :=
  (!(is_const a) || is_const b) && (!(is_volatile a) || is_volatile b)

/-- Implicit convertibility of an expression with the given decltype to a
type, as a compound requirement { e } -> T asks for.  Built in: binding a
reference to a reference-related type (the target must be at least as
cv-qualified; an rvalue binds only to a const non-volatile lvalue reference or
an rvalue reference), copying a scalar, and the arithmetic conversions.
Everything else is asked of the environment. -/
def convertible (env : Env) (src dst : Ty) : Bool :=
  let f := remove_reference src
  match dst with
  | lref t =>
      if remove_cv f = remove_cv t then
        cv_le f t && (is_lvalue src || (is_const t && !(is_volatile t)))
      else
        (is_const t && !(is_volatile t) && is_arithmetic f && is_arithmetic t)
          || env.converts src dst
  | rref t =>
      if remove_cv f = remove_cv t then
        cv_le f t && !(is_lvalue src)
      else
        (is_arithmetic f && is_arithmetic t) || env.converts src dst
  | t =>
      if is_void t then false
      else if remove_cv f = remove_cv t && is_scalar t then true
      else (is_arithmetic f && is_arithmetic t) || env.converts src dst

/-! ## Concepts taken from stl2/concepts/foundational.hpp -/

/-- Modelled from the spec: the concept Same of foundational.hpp, which is not
among the sources; two types are the same type. -/
def Same (t u : Ty) : Bool := decide (t = u)

/-- Modelled from the spec: the concept Integral of foundational.hpp, which is
not among the sources; the type is an integral type. -/
def Integral (t : Ty) : Bool := is_integral t

/-- The base class named in the declaration of each tag struct
(iterator.hpp, lines 291-301). -/
def Tag.base : Tag → Option Tag
  | .weak_input_iterator_tag => none
  | .input_iterator_tag => some .weak_input_iterator_tag
  | .forward_iterator_tag => some .input_iterator_tag
  | .bidirectional_iterator_tag => some .forward_iterator_tag
  | .random_access_iterator_tag => some .bidirectional_iterator_tag
  | .contiguous_iterator_tag => some .random_access_iterator_tag

/-- Walks up at most n declared bases from d looking for b. -/
def Tag.reaches : Nat → Tag → Tag → Bool
  | 0, d, b => decide (d = b)
  | n + 1, d, b =>
      decide (d = b) ||
        match d.base with
        | some p => Tag.reaches n p b
        | none => false

/-- Whether tag d is tag b or has it as a direct or indirect base; the chain
of six declarations has five inheritance steps. -/
def Tag.derived (d b : Tag) : Bool := Tag.reaches 5 d b

/-- Modelled from the spec: the concept Derived of foundational.hpp, which is
not among the sources; by the spec, T is the same as or derived from U.  It
holds of class types only: a tag against a tag by the declared chain, a class
of the environment against itself and against its listed bases (a listed tag
brings the bases of that tag). -/
def Derived (env : Env) (t u : Ty) : Bool :=
  match remove_cv t, remove_cv u with
  | tag a, tag b => a.derived b
  | cls n, tag b =>
      (env.classes n).bases.any fun x =>
        match x with
        | tag a => a.derived b
        | _ => false
  | cls n, cls m => decide (n = m) || (env.classes n).bases.contains (cls m)
  | _, _ => false

/-! ## iterator.hpp: trait extraction -/

/-- Alias ReferenceType (lines 18-20): decltype(*declval<T>()). -/
def ReferenceType (env : Env) (t : Ty) : Option Ty := deref_type env t

/-- Alias detail::__iter_move_t (lines 25-30): for a reference ReferenceType
the rvalue reference to the referent, otherwise the decayed ReferenceType.
Both alternatives are named in the alias, so remove_reference_t<Ref> && has to
be a type: there is none when ReferenceType is void. -/
def iter_move_t (env : Env) (r : Ty) : Option Ty :=
  match ReferenceType env r with
  | none => none
  | some ref =>
      if is_void (remove_reference ref) then none
      else if is_reference ref then some (rref (remove_reference ref))
      else some (decay_t ref)

/-- The decltype of a call of a function with the given return type: the
return type itself, except that a call returning an rvalue reference to a
function is an lvalue, with decltype the lvalue reference. -/
def call_decltype : Ty → Ty
  | rref u => if is_function u then lref u else rref u
  | t => t

/-- Alias RvalueReferenceType (lines 38-39): decltype(iter_move(declval<T&>())),
the decltype of a call returning __iter_move_t<T>.
Function templates that take their arguments by value (iter_move, iter_swap2)
are instantiated at the type of the argument: that is what deduction gives for
the cv-unqualified object types, the only ones that can be Semiregular. -/
def RvalueReferenceType (env : Env) (t : Ty) : Option Ty :=
  if is_void t then none else (iter_move_t env t).map call_decltype

/-- Struct detail::acceptable_value_type (lines 46-53): member type only for an
object type. -/
def acceptable_value_type (t : Ty) : Option Ty :=
  if is_object t then some t else none

/-- Concept detail::Void (lines 55-57). -/
def Void (t : Ty) : Bool := is_void t

/-- Struct detail::nonvoid (lines 59-63): no member type for void. -/
def nonvoid (t : Ty) : Option Ty :=
  if Void t then none else some t

/-- Alias detail::nvuncvref_t (lines 65-66). -/
def nvuncvref_t (t : Ty) : Option Ty := nonvoid (uncvref_t t)

/-- Concept detail::HasValueType (lines 68-70). -/
def HasValueType (env : Env) (t : Ty) : Bool :=
  (member_type env (fun c => c.value_type) t).isSome

/-- Concept detail::HasElementType (lines 72-74). -/
def HasElementType (env : Env) (t : Ty) : Bool :=
  (member_type env (fun c => c.element_type) t).isSome

/-- Concept detail::HasReferenceType (lines 76-78). -/
def HasReferenceType (env : Env) (t : Ty) : Bool :=
  (ReferenceType env t).isSome

/-- Concept detail::HasDifferenceType (lines 80-82). -/
def HasDifferenceType (env : Env) (t : Ty) : Bool :=
  (member_type env (fun c => c.difference_type) t).isSome

/-- Instantiation of a class template whose primary template is empty, given
for each partial specialisation whether its pattern and constraints are met
and its member type: the one specialisation that matches is used; with no
match the primary template is used, and two matches of which neither is more
specialised make the instantiation ill-formed, so in both cases there is no
member type. -/
def select_specialization (specs : List (Bool × Option Ty)) : Option Ty :=
  match specs.filter (fun s => s.1) with
  | [s] => s.2
  | _ => none

/-- The partial specialisations of value_type (lines 89-104), each with its
constraint as written. -/
def value_type_specializations (env : Env) (t : Ty) : List (Bool × Option Ty) :=
  [ (HasValueType env t, member_type env (fun c => c.value_type) t),
    (HasElementType env t && !(HasValueType env t),
      member_type env (fun c => c.element_type) t),
    (HasReferenceType env t && (!(HasElementType env t) && !(HasValueType env t)),
      (ReferenceType env t).map uncvref_t) ]

/-- Class template value_type (lines 86-104): its member type. -/
def value_type (env : Env) (t : Ty) : Option Ty :=
  select_specialization (value_type_specializations env t)

/-- Alias ValueType (lines 108-111). -/
def ValueType (env : Env) (t : Ty) : Option Ty :=
  (value_type env (remove_cv t)).bind acceptable_value_type

/-- Constraint of the subtraction specialisation of difference_type
(lines 213-217): a - b is well-formed for lvalues of type T and not void. -/
def subtraction_nonvoid (env : Env) (t : Ty) : Bool :=
  (lvalue_ref t).isSome &&
    match minus_type env t with
    | some d => !(Void d)
    | none => false

/-- The partial specialisations of difference_type (lines 209-219). -/
def difference_type_specializations (env : Env) (t : Ty) : List (Bool × Option Ty) :=
  [ (HasDifferenceType env t, member_type env (fun c => c.difference_type) t),
    (!(HasDifferenceType env t) && subtraction_nonvoid env t,
      (minus_type env t).map remove_cv) ]

/-- Class template difference_type (lines 205-224): the explicit
specialisations for void* (empty) and std::nullptr_t (ptrdiff_t) take
precedence over the partial ones. -/
def difference_type (env : Env) (t : Ty) : Option Ty :=
  if t = ptr void then none
  else if t = nullptr_t then some ptrdiff_t
  else select_specialization (difference_type_specializations env t)

/-- Alias DifferenceType (lines 228-230). -/
def DifferenceType (env : Env) (t : Ty) : Option Ty :=
  (difference_type env t).bind nvuncvref_t

/-- Concept detail::IntegralDifference (lines 236-241). -/
def IntegralDifference (env : Env) (t : Ty) : Bool :=
  match DifferenceType env t with
  | some d => Integral d
  | none => false

/-- Concept detail::HasDistanceType (lines 243-245). -/
def HasDistanceType (env : Env) (t : Ty) : Bool :=
  (member_type env (fun c => c.distance_type) t).isSome

/-- The partial specialisations of distance_type (lines 251-259). -/
def distance_type_specializations (env : Env) (t : Ty) : List (Bool × Option Ty) :=
  [ (HasDistanceType env t, member_type env (fun c => c.distance_type) t),
    (IntegralDifference env t && !(HasDistanceType env t),
      (DifferenceType env t).bind make_unsigned) ]

/-- Class template distance_type (lines 249-259). -/
def distance_type (env : Env) (t : Ty) : Option Ty :=
  select_specialization (distance_type_specializations env t)

/-- Alias DistanceType (lines 263-265). -/
def DistanceType (env : Env) (t : Ty) : Option Ty := distance_type env t

/-- Whether a type matches the pattern T* of the pointer specialisation. -/
def is_raw_pointer : Ty → Bool
  | ptr _ => true
  | _ => false

/-- The partial specialisations of iterator_category (lines 305-313). -/
def iterator_category_specializations (env : Env) (t : Ty) : List (Bool × Option Ty) :=
  [ (is_raw_pointer t, some (tag .contiguous_iterator_tag)),
    ((member_type env (fun c => c.iterator_category) t).isSome,
      member_type env (fun c => c.iterator_category) t) ]

/-- Class template iterator_category (lines 303-313). -/
def iterator_category (env : Env) (t : Ty) : Option Ty :=
  select_specialization (iterator_category_specializations env t)

/-- Alias IteratorCategory (lines 317-319). -/
def IteratorCategory (env : Env) (t : Ty) : Option Ty := iterator_category env t

/-! ## iterator.hpp: capability concepts -/

/-- Concept Readable (lines 113-122). -/
def Readable (env : Env) (i : Ty) : Bool :=
  env.Semiregular i &&
    ((lvalue_ref i).isSome &&
      match ValueType env i, ReferenceType env i, RvalueReferenceType env i with
      | some v, some r, some _ => convertible env r (lref (add_const v))
      | _, _, _ => false)

/-- Concept MoveWritable (lines 124-131): the requirement *o = stl2::move(t)
asks std::is_assignable of decltype(*o) and an rvalue of T. -/
def MoveWritable (env : Env) (out t : Ty) : Bool :=
  env.Semiregular out &&
    (!(is_void out) && !(is_void t) &&
      match ReferenceType env out with
      | some r => env.is_assignable r (rref (remove_reference t))
      | none => false)

/-- Concept IndirectlyMovable (lines 141-148). -/
def IndirectlyMovable (env : Env) (i o : Ty) : Bool :=
  Readable env i &&
    match ValueType env i, RvalueReferenceType env i with
    | some v, some rr =>
        env.Movable v && env.Constructible v rr && env.Assignable (lref v) rr &&
          MoveWritable env o rr && MoveWritable env o v
    | _, _ => false

/-- Variable template is_nothrow_indirectly_movable_v (lines 161-168): false
unless IndirectlyMovable, then the conjunction of three standard traits. -/
def is_nothrow_indirectly_movable_v (env : Env) (i o : Ty) : Bool :=
  if IndirectlyMovable env i o then
    match ValueType env i, RvalueReferenceType env i, ReferenceType env o with
    | some v, some rr, some ro =>
        env.is_nothrow_constructible v rr &&
          env.is_nothrow_assignable ro rr &&
          env.is_nothrow_assignable ro v
    | _, _, _ => false
  else false

/-! ## utility.hpp: exception specifications of exchange and swap -/

/-- Trait std::is_nothrow_move_constructible<T>, which the standard defines as
is_nothrow_constructible<T, T&&>. -/
def is_nothrow_move_constructible (env : Env) (t : Ty) : Bool :=
  env.is_nothrow_constructible t (rref t)

/-- The noexcept-specification of exchange<T, U> (utility.hpp, lines 18-19). -/
def exchange_noexcept (env : Env) (t u : Ty) : Bool :=
  is_nothrow_move_constructible env t && env.is_nothrow_assignable (lref t) u

/-- The noexcept-specification of swap(T&, T&) (utility.hpp, lines 31-32):
noexcept(b = exchange(a, stl2::move(b))).  The call deduces U = T, and the
assignment of the returned prvalue to b is is_nothrow_assignable<T&, T>. -/
def swap_noexcept (env : Env) (t : Ty) : Bool :=
  exchange_noexcept env t t && env.is_nothrow_assignable (lref t) t

/-- The call swap(a, b) for expressions of the given decltypes, resolved among
the overloads of utility.hpp: none when ill-formed, else whether the call is
noexcept.  The overload for Movable T (lines 30-34) needs two lvalues of one
type T; the array overload (lines 36-42) never applies since the model has no
array types. -/
def swap_call (env : Env) (a b : Ty) : Option Bool :=
  match a, b with
  | lref t, lref u =>
      if t = u && env.Movable t then some (swap_noexcept env t) else none
  | _, _ => none

/-- Variable template is_nothrow_swappable_v (utility.hpp, lines 44-50): false
unless swap((T&&)t, (U&&)u) is well-formed, then noexcept of that call. -/
def is_nothrow_swappable_v (env : Env) (t u : Ty) : Bool :=
  match swap_call env t u with
  | some n => n
  | none => false

/-! ## iterator.hpp: iter_move and iter_swap2 -/

/-- The noexcept-specification of iter_move<R> (lines 486-488):
noexcept(__iter_move_t<R>(stl2::move(*r))), that is *r does not throw and, when
*r is a prvalue, neither does the construction of the result from it. -/
def iter_move_noexcept (env : Env) (r : Ty) : Bool :=
  match ReferenceType env r with
  | none => false
  | some ref =>
      deref_noexcept env r &&
        (is_reference ref || env.is_nothrow_constructible (decay_t ref) (rref ref))

/-- The two overloads of iter_swap2 (lines 177-188 and 492-509). -/
inductive IterSwap2 where
  | direct_swap
  | move_through_temporary
  deriving DecidableEq, Repr

/-- Constraint Swappable<ReferenceType<R1>, ReferenceType<R2>>() shared by the
two overloads. -/
def swappable_references (env : Env) (r1 r2 : Ty) : Bool :=
  match ReferenceType env r1, ReferenceType env r2 with
  | some a, some b => env.Swappable a b
  | _, _ => false

/-- Whether the constraints of an overload of iter_swap2 are satisfied for
template arguments R1, R2 (lines 178-179 and 183-185). -/
def iter_swap2_viable (env : Env) : IterSwap2 → Ty → Ty → Bool
  | .direct_swap, r1, r2 =>
      Readable env r1 && Readable env r2 && swappable_references env r1 r2
  | .move_through_temporary, r1, r2 =>
      Readable env r1 && Readable env r2 &&
        (IndirectlyMovable env r1 r2 && IndirectlyMovable env r2 r1 &&
          !(swappable_references env r1 r2))

/-- Overload resolution of the call iter_swap2(r1, r2): both overloads have the
same signature and neither constraint subsumes the other, so the call is
well-formed exactly when one of them is viable, and selects that one. -/
def iter_swap2_select (env : Env) (r1 r2 : Ty) : Option IterSwap2 :=
  match iter_swap2_viable env .direct_swap r1 r2,
        iter_swap2_viable env .move_through_temporary r1 r2 with
  | true, false => some .direct_swap
  | false, true => some .move_through_temporary
  | _, _ => none

/-- The noexcept-specification of each overload of iter_swap2 (lines 181 and
187-188). -/
def iter_swap2_noexcept (env : Env) : IterSwap2 → Ty → Ty → Bool
  | .direct_swap, r1, r2 =>
      match ReferenceType env r1, ReferenceType env r2 with
      | some a, some b => is_nothrow_swappable_v env a b
      | _, _ => false
  | .move_through_temporary, r1, r2 =>
      is_nothrow_indirectly_movable_v env r1 r2 &&
        is_nothrow_indirectly_movable_v env r2 r1

/-- Concept IndirectlySwappable (lines 192-201): both Readable and the four
calls of iter_swap2 well-formed. -/
def IndirectlySwappable (env : Env) (i1 i2 : Ty) : Bool :=
  Readable env i1 && Readable env i2 &&
    ((iter_swap2_select env i1 i2).isSome &&
      (iter_swap2_select env i2 i1).isSome &&
      (iter_swap2_select env i1 i1).isSome &&
      (iter_swap2_select env i2 i2).isSome)

/-! ## iterator.hpp: incrementable and iterator concepts -/

/-- Concept WeaklyIncrementable (lines 267-277). -/
def WeaklyIncrementable (env : Env) (i : Ty) : Bool :=
  env.Semiregular i &&
    ((lvalue_ref i).isSome &&
      (match DistanceType env i with
        | some d => Integral d
        | none => false) &&
      (match pre_increment_type env i, lvalue_ref i with
        | some t, some r => Same r t
        | _, _ => false) &&
      (post_increment_type env i).isSome)

/-- Concept Incrementable (lines 279-287). -/
def Incrementable (env : Env) (i : Ty) : Bool :=
  WeaklyIncrementable env i &&
    env.EqualityComparable i &&
    ((lvalue_ref i).isSome &&
      match post_increment_type env i with
      | some t => Same i t
      | none => false)

/-- Concept WeakIterator (lines 321-329). -/
def WeakIterator (env : Env) (i : Ty) : Bool :=
  WeaklyIncrementable env i &&
    ((lvalue_ref i).isSome &&
      match deref_type env i with
      | some r => !(Void r)
      | none => false)

/-- Concept Iterator (lines 331-335). -/
def Iterator (env : Env) (i : Ty) : Bool :=
  WeakIterator env i && env.EqualityComparable i

/-- Concept Sentinel (lines 337-342). -/
def Sentinel (env : Env) (s i : Ty) : Bool :=
  Iterator env i && env.Regular s && env.EqualityComparable2 i s

/-- A simple requirement Derived<IteratorCategory<I>, Tag>(); of a
requires-expression, written without the requires keyword: it asks that the
expression be well-formed, which it is whenever IteratorCategory<I> is a type,
and not that it be true. -/
def category_derived_well_formed (env : Env) (i : Ty) (_t : Tag) : Bool :=
  (IteratorCategory env i).isSome

/-- Concept WeakInputIterator (lines 344-355).  Line 350 is a simple
requirement, unlike lines 352 and 353, which start with requires. -/
def WeakInputIterator (env : Env) (i : Ty) : Bool :=
  WeakIterator env i &&
    Readable env i &&
    (!(is_void i) &&
      (IteratorCategory env i).isSome &&
      category_derived_well_formed env i .weak_input_iterator_tag &&
      match post_increment_type env i with
      | some p =>
          Readable env p &&
            (match ValueType env i, ValueType env p with
              | some v, some w => Same v w
              | _, _ => false)
      | none => false)

/-- A constraint Derived<IteratorCategory<I>, Tag>() of a concept body: not
satisfied when IteratorCategory<I> is not a type. -/
def category_derived (env : Env) (i : Ty) (t : Tag) : Bool :=
  match IteratorCategory env i with
  | some c => Derived env c (tag t)
  | none => false

/-- Concept InputIterator (lines 357-362). -/
def InputIterator (env : Env) (i : Ty) : Bool :=
  WeakInputIterator env i &&
    Iterator env i &&
    category_derived env i .input_iterator_tag

/-- Concept ForwardIterator (lines 376-381). -/
def ForwardIterator (env : Env) (i : Ty) : Bool :=
  InputIterator env i &&
    Incrementable env i &&
    category_derived env i .forward_iterator_tag

/-- Concept BidirectionalIterator (lines 383-391). -/
def BidirectionalIterator (env : Env) (i : Ty) : Bool :=
  ForwardIterator env i &&
    category_derived env i .bidirectional_iterator_tag &&
    (!(is_void i) &&
      (match pre_decrement_type env i, lvalue_ref i with
        | some t, some r => Same r t
        | _, _ => false) &&
      (match post_decrement_type env i with
        | some t => Same i t
        | none => false))

/-- Concept SizedIteratorRange (lines 393-404). -/
def SizedIteratorRange (env : Env) (i s : Ty) : Bool :=
  Sentinel env s i &&
    (!(is_void i) && !(is_void s) &&
      match DifferenceType env i with
      | some d =>
          (match minus2_type env i i with
            | some t => convertible env t d
            | none => false) &&
          (match minus2_type env s s with
            | some t => convertible env t d
            | none => false) &&
          (match minus2_type env s i with
            | some t => convertible env t d
            | none => false) &&
          (match minus2_type env i s with
            | some t => convertible env t d
            | none => false)
      | none => false)

/-- Concept RandomAccessIterator (lines 406-420). -/
def RandomAccessIterator (env : Env) (i : Ty) : Bool :=
  BidirectionalIterator env i &&
    category_derived env i .random_access_iterator_tag &&
    env.TotallyOrdered i &&
    SizedIteratorRange env i i &&
    (!(is_void i) &&
      match DifferenceType env i with
      | some n =>
          (match random_access_types env i n, lvalue_ref i, ReferenceType env i with
            | some e, some r, some ref =>
                Same r e.plus_assign && Same i e.plus && Same i e.plus_reversed &&
                  Same r e.minus_assign && Same i e.minus && Same ref e.subscript
            | _, _, _ => false)
      | none => false)

/-- Concept ContiguousIterator (lines 422-427). -/
def ContiguousIterator (env : Env) (i : Ty) : Bool :=
  RandomAccessIterator env i &&
    category_derived env i .contiguous_iterator_tag &&
    match ReferenceType env i with
    | some r => is_reference r
    | none => false

/-! ## A concrete program

Class types and facts used to evaluate the definitions on concrete inputs. -/

namespace Example

/-- A hand-built iterator with exactly operator* returning int&, operator++()
returning the iterator by reference and operator++(int) returning a copy
(operator== is recorded by EqualityComparable of the environment); operator* is
not declared noexcept. -/
def minimal_iterator (self : Ty) : ClassInfo :=
  { ClassInfo.empty with
    deref := some (lref Ty.int), pre_increment := some (lref self),
    post_increment := some self }

/-- The class types of the example program.
0: the minimal iterator; 1: the minimal iterator with difference_type and
iterator_category = input_iterator_tag; 2: the same with
iterator_category = forward_iterator_tag; 3: value_type = void and
element_type = int; 4: value_type = int; 5: difference_type = void and an
operator- returning int; 6: difference_type = const int; 7: operator- returning
int&; 8: a class that is declared but not defined; 9: a movable class whose
move constructor is noexcept and whose move assignment is not; 10: the
minimal iterator of class 2 with operator++(int) returning void; 11: the
minimal iterator with difference_type and iterator_category = class 12, an
empty class unrelated to the tags; every other number: an empty class. -/
def classes : Nat → ClassInfo
  | 0 => minimal_iterator (cls 0)
  | 1 => { minimal_iterator (cls 1) with
           difference_type := some Ty.ptrdiff_t,
           iterator_category := some (tag .input_iterator_tag) }
  | 2 => { minimal_iterator (cls 2) with
           difference_type := some Ty.ptrdiff_t,
           iterator_category := some (tag .forward_iterator_tag) }
  | 3 => { ClassInfo.empty with value_type := some void, element_type := some Ty.int }
  | 4 => { ClassInfo.empty with value_type := some Ty.int }
  | 5 => { ClassInfo.empty with difference_type := some void, minus := some Ty.int }
  | 6 => { ClassInfo.empty with difference_type := some (qual .c Ty.int) }
  | 7 => { ClassInfo.empty with minus := some (lref Ty.int) }
  | 8 => { ClassInfo.empty with complete := false }
  | 9 => ClassInfo.empty
  | 10 => { minimal_iterator (cls 10) with
            post_increment := some void,
            difference_type := some Ty.ptrdiff_t,
            iterator_category := some (tag .forward_iterator_tag) }
  | 11 => { minimal_iterator (cls 11) with
            difference_type := some Ty.ptrdiff_t,
            iterator_category := some (cls 12) }
  | _ => ClassInfo.empty

/-- Cv-unqualified arithmetic and pointer types. -/
def plain_scalar (t : Ty) : Bool :=
  match t with
  | integral _ _ => true
  | floating => true
  | ptr _ => true
  | _ => false

/-- The iterator classes 0, 1, 2, 10 and 11 of the example. -/
def iterator_class (t : Ty) : Bool :=
  match t with
  | cls n => decide (n < 3) || decide (n = 10) || decide (n = 11)
  | _ => false

/-- An lvalue of a plain scalar can be assigned an expression of the same
type or, for an arithmetic target, of another arithmetic type. -/
def scalar_assignable (dst src : Ty) : Bool :=
  match dst with
  | lref t =>
      plain_scalar t &&
        (decide (uncvref_t src = t) || (is_arithmetic t && is_arithmetic (remove_reference src)))
  | _ => false

/-- A plain scalar can be constructed from an expression of the same type or,
for an arithmetic target, of another arithmetic type. -/
def scalar_constructible (t src : Ty) : Bool :=
  plain_scalar t &&
    (decide (uncvref_t src = t) || (is_arithmetic t && is_arithmetic (remove_reference src)))

/-- Two lvalues of the same plain scalar type can be swapped. -/
def scalar_swappable (a b : Ty) : Bool :=
  match a, b with
  | lref t, lref u => decide (t = u) && plain_scalar t
  | _, _ => false

/-- Class 9 of the example, the movable class with a throwing assignment. -/
def throwing_assignment_class (t : Ty) : Bool := decide (t = cls 9)

/-- The example environment: plain scalars model every foundational concept
and their operations do not throw; the iterator classes are semiregular and
equality comparable; class 9 is movable and swappable, and every operation
on it but its assignment is noexcept.  The relations are given for the types
the examples use and are false elsewhere. -/
def env : Env :=
  { classes := classes
    Semiregular := fun t => plain_scalar t || iterator_class t
    Regular := fun t => plain_scalar t || iterator_class t
    EqualityComparable := fun t => plain_scalar t || iterator_class t
    EqualityComparable2 := fun t u => decide (t = u) && (plain_scalar t || iterator_class t)
    TotallyOrdered := plain_scalar
    Movable := fun t => plain_scalar t || throwing_assignment_class t
    Constructible := fun t src =>
      scalar_constructible t src ||
        (throwing_assignment_class t && decide (src = rref t))
    Assignable := fun dst src =>
      scalar_assignable dst src ||
        (throwing_assignment_class (remove_reference dst) && is_lvalue dst &&
          decide (uncvref_t src = remove_reference dst) && !(is_lvalue src))
    Swappable := fun a b =>
      scalar_swappable a b ||
        (throwing_assignment_class (remove_reference a) && is_lvalue a && decide (a = b))
    is_assignable := fun dst src =>
      scalar_assignable dst src ||
        (throwing_assignment_class (remove_reference dst) && is_lvalue dst &&
          decide (uncvref_t src = remove_reference dst) && !(is_lvalue src))
    is_nothrow_constructible := fun t src =>
      scalar_constructible t src ||
        (throwing_assignment_class t && decide (src = rref t))
    is_nothrow_assignable := scalar_assignable
    converts := fun _ _ => false
    minus2 := fun _ _ => none }

end Example

/-! ## The statements of the specification, as definitions to compare with -/

/-- ValueType as the specification resolves it, with top-level cv-qualifiers of
T ignored: the declared value_type if there is one, otherwise the declared
element_type if there is one, otherwise ReferenceType with reference and
cv-qualifiers removed if T can be dereferenced, otherwise undefined; the
candidate of the first step that applies is accepted only if it is an object
type, and no later step is tried. -/
def ValueType_first_match (env : Env) (t : Ty) : Option Ty :=
  match member_type env (fun c => c.value_type) (remove_cv t) with
  | some c => if is_object c then some c else none
  | none =>
      match member_type env (fun c => c.element_type) (remove_cv t) with
      | some c => if is_object c then some c else none
      | none =>
          match ReferenceType env (remove_cv t) with
          | some r => if is_object (uncvref_t r) then some (uncvref_t r) else none
          | none => none

/-- The concept whose definition names each tag in a Derived constraint
(iterator.hpp, lines 350, 361, 380, 386, 409 and 425). -/
def concept_of_tag : Tag → Env → Ty → Bool
  | .weak_input_iterator_tag => WeakInputIterator
  | .input_iterator_tag => InputIterator
  | .forward_iterator_tag => ForwardIterator
  | .bidirectional_iterator_tag => BidirectionalIterator
  | .random_access_iterator_tag => RandomAccessIterator
  | .contiguous_iterator_tag => ContiguousIterator

/-- DifferenceType as claim C5 words it: the declared difference_type if
there is one; otherwise the result type of subtracting two values of T with
cv-qualifiers removed, when the subtraction is well-formed and not void;
ptrdiff_t for std::nullptr_t; undefined in every other case. -/
def DifferenceType_as_claimed (env : Env) (t : Ty) : Option Ty :=
  match member_type env (fun c => c.difference_type) t with
  | some d => some d
  | none =>
      if t = nullptr_t then some ptrdiff_t
      else if t = ptr void then none
      else
        match minus_type env t with
        | some d => if is_void d then none else some (remove_cv d)
        | none => none

/-- DifferenceType as the code resolves it: the declared difference_type if
there is one, otherwise (std::nullptr_t and void* apart) the result type of
subtracting two values of T if that is well-formed; the candidate of the step
that applies has its reference and cv-qualifiers removed and is rejected when
that leaves void, and no later step is tried.  std::nullptr_t has ptrdiff_t
and void* has none. -/
def DifferenceType_first_match (env : Env) (t : Ty) : Option Ty :=
  match member_type env (fun c => c.difference_type) t with
  | some d => if is_void (uncvref_t d) then none else some (uncvref_t d)
  | none =>
      if t = nullptr_t then some ptrdiff_t
      else if t = ptr void then none
      else
        match minus_type env t with
        | some d =>
            if is_void (uncvref_t (remove_cv d)) then none
            else some (uncvref_t (remove_cv d))
        | none => none

/-- DistanceType as the specification resolves it: the declared distance_type
if there is one; otherwise, when DifferenceType is defined and integral, its
unsigned counterpart; otherwise undefined. -/
def DistanceType_first_match (env : Env) (t : Ty) : Option Ty :=
  match member_type env (fun c => c.distance_type) t with
  | some d => some d
  | none =>
      match DifferenceType env t with
      | some d => if is_integral d then make_unsigned d else none
      | none => none

/-- IteratorCategory as the specification resolves it: contiguous_iterator_tag
for a raw pointer type T*; otherwise the declared iterator_category if there is
one; otherwise undefined. -/
def IteratorCategory_first_match (env : Env) (t : Ty) : Option Ty :=
  match t with
  | ptr _ => some (tag .contiguous_iterator_tag)
  | _ => member_type env (fun c => c.iterator_category) t

/-- Constraints of partial specialisations are pairwise exclusive when no two
of them are satisfied together. -/
def pairwise_exclusive (specs : List (Bool × Option Ty)) : Prop :=
  specs.Pairwise fun a b => ¬ (a.1 = true ∧ b.1 = true)

/-! ## Run-time model: exchange, swap and iter_swap2 on a store

Objects are the slots of a store.  References and the iterators handed to
iter_move and iter_swap2 are represented by the slot they refer to, so that two
arguments may name the same object.  Elements of arrays are the slots (a, i)
of array object a at index i.  Values of all types live in one carrier; an
initialisation or assignment whose source and target types differ applies the
conversion to the target type, which the function templates take as a
parameter (the identity when the two types are the same). -/

/-- A store: the value held by each object. -/
abbrev Store (σ α : Type) := σ → α

/-- Move semantics of the value type: the construction or assignment target
receives the value of the source, and the source is left holding
moved_from of it (the identity for scalar types). -/
structure MoveSemantics (α : Type) where
  moved_from : α → α

/-- The store with object x holding v. -/
def Store.write {σ α : Type} [DecidableEq σ] (s : Store σ α) (x : σ) (v : α) : Store σ α :=
  fun k => if k = x then v else s k

/-- Declaration V tmp(stl2::move(x)) or V tmp = stl2::move(x), with the
conversion from the type of x to V: the new local value and the store. -/
def move_construct {σ α : Type} [DecidableEq σ] (m : MoveSemantics α) (conv : α → α)
    (s : Store σ α) (x : σ) : α × Store σ α :=
  (conv (s x), s.write x (m.moved_from (s x)))

/-- Assignment x = stl2::move(y) between two objects of the store, with the
conversion from the type of y to the type of x. -/
def move_assign {σ α : Type} [DecidableEq σ] (m : MoveSemantics α) (conv : α → α)
    (s : Store σ α) (x y : σ) : Store σ α :=
  (s.write x (conv (s y))).write y (m.moved_from (s y))

/-- Assignment x = y between two objects of the store, with the conversion
from the type of y to the type of x. -/
def copy_assign {σ α : Type} [DecidableEq σ] (conv : α → α) (s : Store σ α) (x y : σ) :
    Store σ α :=
  s.write x (conv (s y))

/-- Assignment x = stl2::move(tmp) from a local or temporary holding v, which
is gone afterwards, with the conversion from its type to the type of x. -/
def assign_from_temporary {σ α : Type} [DecidableEq σ] (conv : α → α) (s : Store σ α)
    (x : σ) (v : α) : Store σ α :=
  s.write x (conv v)

/-- Function exchange<T, U> (utility.hpp, lines 16-23): T tmp(stl2::move(t));
t = stl2::forward<U>(u); return tmp.  The argument u is an object of the store,
forwarded as an rvalue (moved from) or as an lvalue (copied); convert is the
conversion from U to T the assignment performs. -/
def exchange {σ α : Type} [DecidableEq σ] (m : MoveSemantics α) (convert : α → α)
    (s : Store σ α) (t u : σ) (u_is_rvalue : Bool) : α × Store σ α :=
  let c := move_construct m id s t
  let s2 := if u_is_rvalue then move_assign m convert c.2 t u else copy_assign convert c.2 t u
  (c.1, s2)

/-- Function swap (utility.hpp, lines 30-34): b = exchange(a, stl2::move(b)),
both arguments of the one type T, so that exchange is called with U = T. -/
def swap {σ α : Type} [DecidableEq σ] (m : MoveSemantics α) (s : Store σ α) (a b : σ) :
    Store σ α :=
  let e := exchange m id s a b true
  assign_from_temporary id e.2 b e.1

/-- Function iter_move (iterator.hpp, lines 486-490): stl2::move(*r), an rvalue
reference to the object r refers to. -/
def iter_move {σ : Type} (r : σ) : σ := r

/-- The conversions in the three statements of the move-through-temporary
overload of iter_swap2: to_value from the referent of R1 to ValueType<R1>
(line 506), to_first from the referent of R2 to the referent of R1 (line 507),
to_second from ValueType<R1> to the referent of R2 (line 508). -/
structure IterSwapConversions (α : Type) where
  to_value : α → α
  to_first : α → α
  to_second : α → α

/-- The move-through-temporary overload of iter_swap2 (iterator.hpp,
lines 500-509): ValueType<R1> tmp = iter_move(r1); *r1 = iter_move(r2);
*r2 = std::move(tmp). -/
def iter_swap2_move_through_temporary {σ α : Type} [DecidableEq σ] (m : MoveSemantics α)
    (c : IterSwapConversions α) (s : Store σ α) (r1 r2 : σ) : Store σ α :=
  let tmp := move_construct m c.to_value s (iter_move r1)
  let s2 := move_assign m c.to_first tmp.2 r1 (iter_move r2)
  assign_from_temporary c.to_second s2 r2 tmp.1

namespace Example

/-- A value type whose moved-from objects hold 0. -/
def emptying : MoveSemantics Nat := { moved_from := fun _ => 0 }

/-- Scalar values: a move is a copy. -/
def copying : MoveSemantics Nat := { moved_from := fun v => v }

/-- A store in which object k holds 10 * k + 1. -/
def store : Store Nat Nat := fun k => 10 * k + 1

/-- Conversion to unsigned int (32 bits). -/
def to_unsigned (v : Nat) : Nat := v % 4294967296

/-- The conversions of iter_swap2 for two iterators of one value type. -/
def same_type : IterSwapConversions Nat :=
  { to_value := fun v => v, to_first := fun v => v, to_second := fun v => v }

/-- The conversions of iter_swap2(r1, r2) for r1 an unsigned* and r2 an
unsigned long*: the assignment through r1 converts to unsigned. -/
def unsigned_and_long : IterSwapConversions Nat :=
  { to_value := fun v => v, to_first := to_unsigned, to_second := fun v => v }

/-- A store with an unsigned object 1 holding 7 and an unsigned long object 2
holding 2^40 and an unsigned long object 3 holding 2^32 + 5. -/
def mixed_store : Store Nat Nat := fun k =>
  if k = 1 then 7 else if k = 2 then 1099511627776 else if k = 3 then 4294967301 else 0

end Example

/-! ## Auxiliary lemmas -/

/-- The result of remove_cv carries no qualification. -/
theorem remove_cv_not_qual (t : Ty) : ∀ q u, remove_cv t ≠ qual q u := by
  induction t with
  | qual q t ih => simpa [remove_cv] using ih
  | _ => intro q u h; simp [remove_cv] at h

/-- Trait remove_cv is idempotent. -/
theorem remove_cv_idem (t : Ty) : remove_cv (remove_cv t) = remove_cv t := by
  induction t with
  | qual q t ih => simpa [remove_cv] using ih
  | _ => simp [remove_cv]

/-- Being an object type does not depend on cv-qualification. -/
theorem is_object_remove_cv (t : Ty) : is_object (remove_cv t) = is_object t := by
  simp [is_object, is_function, is_void, remove_cv_idem]

/-- The result of remove_cv is not const. -/
theorem is_const_remove_cv (t : Ty) : is_const (remove_cv t) = false := by
  induction t with
  | qual q t ih => simpa [remove_cv] using ih
  | _ => simp [remove_cv, is_const]

/-- The result of remove_cv is not volatile. -/
theorem is_volatile_remove_cv (t : Ty) : is_volatile (remove_cv t) = false := by
  induction t with
  | qual q t ih => simpa [remove_cv] using ih
  | _ => simp [remove_cv, is_volatile]

/-- Adding const to an unqualified object type qualifies it. -/
theorem add_const_object (u : Ty) (hq : ∀ q v, u ≠ qual q v) (ho : is_object u = true) :
    add_const u = qual .c u := by
  cases u with
  | qual q v => exact absurd rfl (hq q v)
  | lref v => simp [is_object, remove_cv, is_reference] at ho
  | rref v => simp [is_object, remove_cv, is_reference] at ho
  | func => simp [is_object, is_function, remove_cv] at ho
  | _ => rfl

/-- An object type is not void. -/
theorem is_void_of_is_object {t : Ty} (h : is_object t = true) : is_void t = false := by
  simp only [is_object, Bool.and_eq_true, Bool.not_eq_true'] at h
  exact h.2

/-- A type that is not void differs from void. -/
theorem ne_void_of_not_is_void {t : Ty} (h : is_void t = false) : t ≠ void := by
  intro e
  subst e
  exact absurd h (by decide)

/-- A pointer type is not void. -/
theorem is_void_ptr (t : Ty) : is_void (ptr t) = false := rfl

/-- A reference type is not void. -/
theorem is_void_lref (t : Ty) : is_void (lref t) = false := rfl

/-- The type T*& exists. -/
theorem lvalue_ref_ptr (t : Ty) : lvalue_ref (ptr t) = some (lref (ptr t)) := rfl

/-- Subtraction is ill-formed for operands of type void. -/
theorem minus_type_void (env : Env) (t : Ty) (h : is_void t = true) :
    minus_type env t = none := by
  induction t with
  | qual q t ih =>
      have ht : is_void t = true := by simpa [is_void, remove_cv] using h
      simp [minus_type, ih ht]
  | void => rfl
  | _ => simp [is_void, remove_cv] at h

/-- An integral type is, cv-qualifiers apart, one of the integral types. -/
theorem is_integral_elim {d : Ty} (h : is_integral d = true) :
    ∃ s r, remove_cv d = integral s r := by
  unfold is_integral at h
  split at h
  · rename_i s r hd
    exact ⟨s, r, hd⟩
  · cases h

/-- An integral type is not a reference. -/
theorem remove_reference_of_is_integral {d : Ty} (h : is_integral d = true) :
    remove_reference d = d := by
  cases d <;> first | rfl | simp [is_integral, remove_cv] at h

/-- Two tags each derived from the other are the same tag. -/
theorem Tag.derived_antisymm (a b : Tag) (hab : a.derived b = true)
    (hba : b.derived a = true) : a = b := by
  cases a <;> cases b <;> first | rfl | exact absurd hab (by decide) | exact absurd hba (by decide)

/-- Dereferencing a pointer to non-void gives an lvalue of the pointee. -/
theorem ReferenceType_ptr (env : Env) (t : Ty) (hvoid : is_void t = false) :
    ReferenceType env (ptr t) = some (lref t) := by
  simp [ReferenceType, deref_type, hvoid]

/-- The value type of a pointer to an object type is the unqualified pointee. -/
theorem ValueType_ptr (env : Env) (t : Ty) (ho : is_object t = true) :
    ValueType env (ptr t) = some (remove_cv t) := by
  have hvoid := is_void_of_is_object ho
  have hr := ReferenceType_ptr env t hvoid
  have h1 : value_type env (ptr t) = some (remove_cv t) := by
    simp [value_type, select_specialization, value_type_specializations, HasValueType,
      HasElementType, HasReferenceType, member_type, hr, List.filter, uncvref_t,
      remove_reference]
  simp [ValueType, remove_cv, h1, acceptable_value_type, is_object_remove_cv, ho]

/-- An object type is not a function type. -/
theorem is_function_of_is_object {t : Ty} (h : is_object t = true) : is_function t = false := by
  simp only [is_object, Bool.and_eq_true, Bool.not_eq_true'] at h
  exact h.1.1

/-- Moving from a pointer to an object gives an rvalue reference to the pointee. -/
theorem RvalueReferenceType_ptr (env : Env) (t : Ty) (ho : is_object t = true) :
    RvalueReferenceType env (ptr t) = some (rref t) := by
  have hvoid := is_void_of_is_object ho
  simp [RvalueReferenceType, is_void_ptr, iter_move_t, ReferenceType_ptr env t hvoid,
    remove_reference, hvoid, is_reference, call_decltype, is_function_of_is_object ho]

/-- An lvalue of a non-volatile object type binds to a const reference to its unqualified type. -/
theorem convertible_lvalue_const (env : Env) (t : Ty) (ho : is_object t = true)
    (hv : is_volatile t = false) :
    convertible env (lref t) (lref (add_const (remove_cv t))) = true := by
  have hadd : add_const (remove_cv t) = qual .c (remove_cv t) :=
    add_const_object _ (remove_cv_not_qual t) (by rw [is_object_remove_cv]; exact ho)
  simp [convertible, hadd, remove_reference, remove_cv, remove_cv_idem, cv_le, is_const,
    is_volatile, hv, is_lvalue, Qual.hasConst]

/-- The difference type of a pointer to a complete object type is ptrdiff_t. -/
theorem DifferenceType_ptr (env : Env) (t : Ty) (hc : is_complete_object env t = true) :
    DifferenceType env (ptr t) = some ptrdiff_t := by
  have ho : is_object t = true := by
    simp only [is_complete_object, Bool.and_eq_true] at hc
    exact hc.1
  have hne := ne_void_of_not_is_void (is_void_of_is_object ho)
  have hm : minus_type env (ptr t) = some ptrdiff_t := by simp [minus_type, hc]
  have e1 : is_void ptrdiff_t = false := by decide
  have e2 : remove_cv ptrdiff_t = ptrdiff_t := by decide
  have e3 : nvuncvref_t ptrdiff_t = some ptrdiff_t := by decide
  have h1 : difference_type env (ptr t) = some ptrdiff_t := by
    simp [difference_type, hne, select_specialization, difference_type_specializations,
      HasDifferenceType, member_type, subtraction_nonvoid, lvalue_ref_ptr, hm, Void, e1, e2,
      List.filter]
  simp [DifferenceType, h1, e3]

/-- The distance type of a pointer to a complete object type is the unsigned ptrdiff_t. -/
theorem DistanceType_ptr (env : Env) (t : Ty) (hc : is_complete_object env t = true) :
    DistanceType env (ptr t) = some (integral false 3) := by
  have hd := DifferenceType_ptr env t hc
  have e1 : Integral ptrdiff_t = true := by decide
  have e2 : make_unsigned ptrdiff_t = some (integral false 3) := by decide
  simp [DistanceType, distance_type, select_specialization, distance_type_specializations,
    HasDistanceType, member_type, IntegralDifference, hd, e1, e2, List.filter]

/-- The category of every pointer type is contiguous_iterator_tag. -/
theorem IteratorCategory_ptr (env : Env) (t : Ty) :
    IteratorCategory env (ptr t) = some (tag .contiguous_iterator_tag) := by
  simp [IteratorCategory, iterator_category, select_specialization,
    iterator_category_specializations, is_raw_pointer, member_type, List.filter]

/-- The category of a pointer is derived from every tag. -/
theorem category_derived_ptr (env : Env) (t : Ty) (l : Tag) :
    category_derived env (ptr t) l = true := by
  simp only [category_derived, IteratorCategory_ptr, Derived, remove_cv]
  cases l <;> decide

/-- A satisfied Derived constraint on the category names a category type. -/
theorem category_derived_elim {env : Env} {i : Ty} {t : Tag}
    (h : category_derived env i t = true) :
    ∃ c, IteratorCategory env i = some c ∧ Derived env c (tag t) = true := by
  unfold category_derived at h
  cases hc : IteratorCategory env i with
  | none => simp [hc] at h
  | some c =>
      simp only [hc] at h
      exact ⟨c, rfl, h⟩

/-- Each concept from InputIterator up carries the Derived constraint of its
own tag. -/
theorem concept_of_tag_category (env : Env) (i : Ty) (l : Tag)
    (hl : l ≠ .weak_input_iterator_tag) (h : concept_of_tag l env i = true) :
    category_derived env i l = true := by
  cases l with
  | weak_input_iterator_tag => exact absurd rfl hl
  | input_iterator_tag =>
      simp only [concept_of_tag, InputIterator, Bool.and_eq_true] at h
      exact h.2
  | forward_iterator_tag =>
      simp only [concept_of_tag, ForwardIterator, Bool.and_eq_true] at h
      exact h.2
  | bidirectional_iterator_tag =>
      simp only [concept_of_tag, BidirectionalIterator, Bool.and_eq_true] at h
      exact h.1.2
  | random_access_iterator_tag =>
      simp only [concept_of_tag, RandomAccessIterator, Bool.and_eq_true] at h
      exact h.1.1.1.2
  | contiguous_iterator_tag =>
      simp only [concept_of_tag, ContiguousIterator, Bool.and_eq_true] at h
      exact h.1.2

/-- A well-formed call of iter_swap2 has exactly one viable overload. -/
theorem iter_swap2_select_isSome {env : Env} {r1 r2 : Ty}
    (h : (iter_swap2_select env r1 r2).isSome = true) :
    (iter_swap2_viable env .direct_swap r1 r2 = true ∧
        iter_swap2_viable env .move_through_temporary r1 r2 = false) ∨
      (iter_swap2_viable env .direct_swap r1 r2 = false ∧
        iter_swap2_viable env .move_through_temporary r1 r2 = true) := by
  unfold iter_swap2_select at h
  cases hd : iter_swap2_viable env .direct_swap r1 r2 <;>
    cases hm : iter_swap2_viable env .move_through_temporary r1 r2 <;>
    simp [hd, hm] at h ⊢

/-- The constraints of the two overloads of iter_swap2 exclude each other. -/
theorem iter_swap2_viable_exclusive (env : Env) (r1 r2 : Ty) :
    ¬ (iter_swap2_viable env .direct_swap r1 r2 = true ∧
        iter_swap2_viable env .move_through_temporary r1 r2 = true) := by
  intro h
  obtain ⟨hd, hm⟩ := h
  simp only [iter_swap2_viable, Bool.and_eq_true] at hd hm
  have hs := hd.2
  have hn := hm.2.2
  rw [hs] at hn
  exact absurd hn (by decide)

/-- Two Readable types with swappable reference types select the direct swap. -/
theorem iter_swap2_select_direct (env : Env) (r1 r2 : Ty)
    (h1 : Readable env r1 = true) (h2 : Readable env r2 = true)
    (hs : swappable_references env r1 r2 = true) :
    iter_swap2_select env r1 r2 = some .direct_swap := by
  have hd : iter_swap2_viable env .direct_swap r1 r2 = true := by
    simp [iter_swap2_viable, h1, h2, hs]
  have hm : iter_swap2_viable env .move_through_temporary r1 r2 = false := by
    simp [iter_swap2_viable, hs]
  simp [iter_swap2_select, hd, hm]

/-- Pointers to non-volatile object types are Readable. -/
theorem pointer_Readable (env : Env) (t : Ty)
    (hS : env.Semiregular (ptr t) = true) (ho : is_object t = true)
    (hv : is_volatile t = false) :
    Readable env (ptr t) = true := by
  have hvoid := is_void_of_is_object ho
  simp [Readable, hS, lvalue_ref_ptr, ValueType_ptr env t ho, ReferenceType_ptr env t hvoid,
    RvalueReferenceType_ptr env t ho, convertible_lvalue_const env t ho hv]

/-- Pointers to complete object types are WeaklyIncrementable. -/
theorem pointer_WeaklyIncrementable (env : Env) (t : Ty)
    (hS : env.Semiregular (ptr t) = true) (hc : is_complete_object env t = true) :
    WeaklyIncrementable env (ptr t) = true := by
  have e1 : Integral (integral false 3) = true := by decide
  simp [WeaklyIncrementable, hS, lvalue_ref_ptr, DistanceType_ptr env t hc, e1,
    pre_increment_type, pre_step_type, post_increment_type, post_step_type,
    remove_reference, remove_cv, is_const, hc, Same]

/-- Pointers to complete object types are WeakIterators. -/
theorem pointer_WeakIterator (env : Env) (t : Ty)
    (hS : env.Semiregular (ptr t) = true) (hc : is_complete_object env t = true) :
    WeakIterator env (ptr t) = true := by
  have ho : is_object t = true := by
    simp only [is_complete_object, Bool.and_eq_true] at hc
    exact hc.1
  have hr := ReferenceType_ptr env t (is_void_of_is_object ho)
  simp only [ReferenceType] at hr
  simp [WeakIterator, pointer_WeaklyIncrementable env t hS hc, lvalue_ref_ptr, hr, Void,
    is_void_lref]

/-- Pointers to complete non-volatile object types are InputIterators. -/
theorem pointer_InputIterator (env : Env) (t : Ty)
    (hS : env.Semiregular (ptr t) = true) (hE : env.EqualityComparable (ptr t) = true)
    (hc : is_complete_object env t = true) (hv : is_volatile t = false) :
    InputIterator env (ptr t) = true := by
  have ho : is_object t = true := by
    simp only [is_complete_object, Bool.and_eq_true] at hc
    exact hc.1
  have hw := pointer_WeakIterator env t hS hc
  have hr := pointer_Readable env t hS ho hv
  have hwi : WeakInputIterator env (ptr t) = true := by
    simp [WeakInputIterator, hw, hr, is_void_ptr, IteratorCategory_ptr, post_increment_type,
      post_step_type, remove_reference, remove_cv, is_const, hc, ValueType_ptr env t ho, Same,
      category_derived_well_formed]
  simp [InputIterator, hwi, Iterator, hw, hE, category_derived_ptr]

/-- Pointers to complete non-volatile object types are BidirectionalIterators. -/
theorem pointer_BidirectionalIterator (env : Env) (t : Ty)
    (hS : env.Semiregular (ptr t) = true) (hE : env.EqualityComparable (ptr t) = true)
    (hc : is_complete_object env t = true) (hv : is_volatile t = false) :
    BidirectionalIterator env (ptr t) = true := by
  have hi := pointer_InputIterator env t hS hE hc hv
  have hinc : Incrementable env (ptr t) = true := by
    simp [Incrementable, pointer_WeaklyIncrementable env t hS hc, hE, lvalue_ref_ptr,
      post_increment_type, post_step_type, remove_reference, remove_cv, is_const, hc, Same]
  simp [BidirectionalIterator, ForwardIterator, hi, hinc, category_derived_ptr, is_void_ptr,
    lvalue_ref_ptr, pre_decrement_type, pre_step_type, post_decrement_type, post_step_type,
    remove_reference, remove_cv, is_const, hc, Same]

/-- A pointer to a complete object type forms a sized range with itself. -/
theorem pointer_SizedIteratorRange (env : Env) (t : Ty)
    (hS : env.Semiregular (ptr t) = true) (hR : env.Regular (ptr t) = true)
    (hE : env.EqualityComparable (ptr t) = true)
    (hE2 : env.EqualityComparable2 (ptr t) (ptr t) = true)
    (hc : is_complete_object env t = true) :
    SizedIteratorRange env (ptr t) (ptr t) = true := by
  have hm : minus2_type env (ptr t) (ptr t) = some ptrdiff_t := by
    simp [minus2_type, minus_type, hc]
  have e1 : convertible env ptrdiff_t ptrdiff_t = true := by
    simp [convertible, ptrdiff_t, is_void, remove_cv, remove_reference, is_scalar]
  simp [SizedIteratorRange, Sentinel, Iterator, pointer_WeakIterator env t hS hc, hE, hR, hE2,
    is_void_ptr, DifferenceType_ptr env t hc, hm, e1]

/-- With two exclusive specialisations, the one whose constraint is met is selected. -/
theorem select_specialization_two (a b : Bool × Option Ty)
    (h : pairwise_exclusive [a, b]) :
    ∀ s ∈ [a, b], s.1 = true → select_specialization [a, b] = s.2 := by
  obtain ⟨a1, a2⟩ := a
  obtain ⟨b1, b2⟩ := b
  intro s hs h1
  simp only [pairwise_exclusive, List.pairwise_cons, List.mem_cons, List.mem_singleton,
    List.not_mem_nil, or_false, forall_eq_or_imp, forall_eq, List.Pairwise.nil,
    IsEmpty.forall_iff, implies_true, and_true] at h
  simp only [List.mem_cons, List.mem_singleton, List.not_mem_nil, or_false] at hs
  cases a1 <;> cases b1 <;> rcases hs with rfl | rfl <;>
    simp_all [select_specialization, List.filter]

/-- With three pairwise exclusive specialisations, the one whose constraint is met is selected. -/
theorem select_specialization_three (a b c : Bool × Option Ty)
    (h : pairwise_exclusive [a, b, c]) :
    ∀ s ∈ [a, b, c], s.1 = true → select_specialization [a, b, c] = s.2 := by
  obtain ⟨a1, a2⟩ := a
  obtain ⟨b1, b2⟩ := b
  obtain ⟨c1, c2⟩ := c
  intro s hs h1
  simp only [pairwise_exclusive, List.pairwise_cons, List.mem_cons, List.mem_singleton,
    List.not_mem_nil, or_false, forall_eq_or_imp, forall_eq, List.Pairwise.nil,
    IsEmpty.forall_iff, implies_true, and_true] at h
  simp only [List.mem_cons, List.mem_singleton, List.not_mem_nil, or_false] at hs
  cases a1 <;> cases b1 <;> cases c1 <;> rcases hs with rfl | rfl | rfl <;>
    simp_all [select_specialization, List.filter]

/-- The constraints of the specialisations of value_type exclude each other. -/
theorem value_type_guards (env : Env) (t : Ty) :
    pairwise_exclusive (value_type_specializations env t) := by
  simp only [pairwise_exclusive, value_type_specializations]
  cases HasValueType env t <;> cases HasElementType env t <;>
    cases HasReferenceType env t <;> simp

/-- The constraints of the specialisations of difference_type exclude each other. -/
theorem difference_type_guards (env : Env) (t : Ty) :
    pairwise_exclusive (difference_type_specializations env t) := by
  simp only [pairwise_exclusive, difference_type_specializations]
  cases HasDifferenceType env t <;> simp

/-- The constraints of the specialisations of distance_type exclude each other. -/
theorem distance_type_guards (env : Env) (t : Ty) :
    pairwise_exclusive (distance_type_specializations env t) := by
  simp only [pairwise_exclusive, distance_type_specializations]
  cases HasDistanceType env t <;> simp

/-- The constraints of the specialisations of iterator_category exclude each other: a pointer type has no nested typedef. -/
theorem iterator_category_guards (env : Env) (t : Ty) :
    pairwise_exclusive (iterator_category_specializations env t) := by
  simp only [pairwise_exclusive, iterator_category_specializations]
  cases t <;> simp [is_raw_pointer, member_type]

/-- The value of every object after swap(a, b). -/
theorem swap_apply {σ α : Type} [DecidableEq σ] (m : MoveSemantics α) (s : Store σ α)
    (a b k : σ) :
    swap m s a b k = if k = a then s b else if k = b then s a else s k := by
  simp only [swap, exchange, move_construct, move_assign, assign_from_temporary, Store.write,
    if_true, id]
  by_cases hka : k = a <;> by_cases hkb : k = b <;> by_cases hab : b = a <;>
    simp_all

/-- The value of every object after the move-through-temporary iter_swap2. -/
theorem iter_swap2_move_through_temporary_apply {σ α : Type} [DecidableEq σ]
    (m : MoveSemantics α) (c : IterSwapConversions α) (s : Store σ α) (r1 r2 k : σ) :
    iter_swap2_move_through_temporary m c s r1 r2 k =
      if k = r2 then c.to_second (c.to_value (s r1))
      else if k = r1 then c.to_first (s r2) else s k := by
  simp only [iter_swap2_move_through_temporary, iter_move, move_construct, move_assign,
    assign_from_temporary, Store.write]
  by_cases hka : k = r1 <;> by_cases hkb : k = r2 <;> by_cases hab : r2 = r1 <;>
    simp_all

/-- C1: the iterator predicates are monotone along the refinement chain.
For every type I, ContiguousIterator implies RandomAccessIterator, which
implies BidirectionalIterator, which implies ForwardIterator, which implies
InputIterator, which implies Iterator, which implies WeakIterator; and
InputIterator also implies WeakInputIterator. -/
theorem iterator_refinement_chain (env : Env) (i : Ty) :
    (ContiguousIterator env i = true → RandomAccessIterator env i = true) ∧
    (RandomAccessIterator env i = true → BidirectionalIterator env i = true) ∧
    (BidirectionalIterator env i = true → ForwardIterator env i = true) ∧
    (ForwardIterator env i = true → InputIterator env i = true) ∧
    (InputIterator env i = true → Iterator env i = true) ∧
    (Iterator env i = true → WeakIterator env i = true) ∧
    (InputIterator env i = true → WeakInputIterator env i = true) := by
  refine ⟨?_, ?_, ?_, ?_, ?_, ?_, ?_⟩ <;> intro h
  · unfold ContiguousIterator at h
    simp only [Bool.and_eq_true] at h
    exact h.1.1
  · unfold RandomAccessIterator at h
    simp only [Bool.and_eq_true] at h
    exact h.1.1.1.1
  · unfold BidirectionalIterator at h
    simp only [Bool.and_eq_true] at h
    exact h.1.1
  · unfold ForwardIterator at h
    simp only [Bool.and_eq_true] at h
    exact h.1.1
  · unfold InputIterator at h
    simp only [Bool.and_eq_true] at h
    exact h.1.2
  · unfold Iterator at h
    simp only [Bool.and_eq_true] at h
    exact h.1
  · unfold InputIterator at h
    simp only [Bool.and_eq_true] at h
    exact h.1.1

/-- Witness for C1: int* is a ContiguousIterator in the example program, and
the chain carries that down to every weaker predicate. -/
theorem iterator_refinement_chain_witness :
    ContiguousIterator Example.env (ptr Ty.int) = true ∧
    RandomAccessIterator Example.env (ptr Ty.int) = true ∧
    BidirectionalIterator Example.env (ptr Ty.int) = true ∧
    ForwardIterator Example.env (ptr Ty.int) = true ∧
    InputIterator Example.env (ptr Ty.int) = true ∧
    Iterator Example.env (ptr Ty.int) = true ∧
    WeakIterator Example.env (ptr Ty.int) = true ∧
    WeakInputIterator Example.env (ptr Ty.int) = true :=
  have c := iterator_refinement_chain Example.env (ptr Ty.int)
  have h0 : ContiguousIterator Example.env (ptr Ty.int) = true := by decide
  have h1 := c.1 h0
  have h2 := c.2.1 h1
  have h3 := c.2.2.1 h2
  have h4 := c.2.2.2.1 h3
  have h5 := c.2.2.2.2.1 h4
  have h6 := c.2.2.2.2.2.1 h5
  have h7 := c.2.2.2.2.2.2 h4
  ⟨h0, h1, h2, h3, h4, h5, h6, h7⟩

/-- C2: for every pair (I1, I2) satisfying IndirectlySwappable, exactly one of
the two iter_swap2 overloads (direct swap, move through a temporary) is viable
for each of the four calls iter_swap2(i1,i2), iter_swap2(i2,i1),
iter_swap2(i1,i1) and iter_swap2(i2,i2); and the constraints of the two
overloads are never both satisfied for the same argument types. -/
theorem iter_swap2_exactly_one_overload (env : Env) (i1 i2 : Ty)
    (h : IndirectlySwappable env i1 i2 = true) :
    ((iter_swap2_viable env .direct_swap i1 i2 = true ∧
        iter_swap2_viable env .move_through_temporary i1 i2 = false) ∨
      (iter_swap2_viable env .direct_swap i1 i2 = false ∧
        iter_swap2_viable env .move_through_temporary i1 i2 = true)) ∧
    ((iter_swap2_viable env .direct_swap i2 i1 = true ∧
        iter_swap2_viable env .move_through_temporary i2 i1 = false) ∨
      (iter_swap2_viable env .direct_swap i2 i1 = false ∧
        iter_swap2_viable env .move_through_temporary i2 i1 = true)) ∧
    ((iter_swap2_viable env .direct_swap i1 i1 = true ∧
        iter_swap2_viable env .move_through_temporary i1 i1 = false) ∨
      (iter_swap2_viable env .direct_swap i1 i1 = false ∧
        iter_swap2_viable env .move_through_temporary i1 i1 = true)) ∧
    ((iter_swap2_viable env .direct_swap i2 i2 = true ∧
        iter_swap2_viable env .move_through_temporary i2 i2 = false) ∨
      (iter_swap2_viable env .direct_swap i2 i2 = false ∧
        iter_swap2_viable env .move_through_temporary i2 i2 = true)) ∧
    (∀ r1 r2 : Ty,
      ¬ (iter_swap2_viable env .direct_swap r1 r2 = true ∧
          iter_swap2_viable env .move_through_temporary r1 r2 = true)) := by
  unfold IndirectlySwappable at h
  simp only [Bool.and_eq_true] at h
  obtain ⟨_, ⟨⟨h12, h21⟩, h11⟩, h22⟩ := h
  exact ⟨iter_swap2_select_isSome h12, iter_swap2_select_isSome h21,
    iter_swap2_select_isSome h11, iter_swap2_select_isSome h22,
    iter_swap2_viable_exclusive env⟩

/-- Witness for C2: the minimal iterator class and long* of the example
program are IndirectlySwappable; the mixed calls select the move through a
temporary and the calls with two arguments of one type the direct swap. -/
theorem iter_swap2_exactly_one_overload_witness :
    IndirectlySwappable Example.env (cls 0) (ptr Ty.long) = true ∧
    iter_swap2_select Example.env (cls 0) (ptr Ty.long) = some .move_through_temporary ∧
    iter_swap2_select Example.env (cls 0) (cls 0) = some .direct_swap ∧
    ((iter_swap2_viable Example.env .direct_swap (cls 0) (ptr Ty.long) = true ∧
        iter_swap2_viable Example.env .move_through_temporary (cls 0) (ptr Ty.long) = false) ∨
      (iter_swap2_viable Example.env .direct_swap (cls 0) (ptr Ty.long) = false ∧
        iter_swap2_viable Example.env .move_through_temporary (cls 0) (ptr Ty.long) = true)) :=
  ⟨by decide, by decide, by decide,
    (iter_swap2_exactly_one_overload Example.env (cls 0) (ptr Ty.long) (by decide)).1⟩

/-- C3: for every type T (top-level cv-qualifiers ignored) ValueType is
resolved by first match: the declared value_type, else the declared
element_type, else ReferenceType with reference and cv-qualifiers removed, else
undefined; the candidate of the first matching step is accepted only if it is
an object type, without falling through to a later step, so that ValueType,
when defined, is always an object type. -/
theorem ValueType_resolution (env : Env) (t : Ty) :
    ValueType env t = ValueType_first_match env t ∧
      ∀ v, ValueType env t = some v → is_object v = true := by
  constructor
  · simp only [ValueType, ValueType_first_match, value_type, select_specialization,
      value_type_specializations, HasValueType, HasElementType, HasReferenceType,
      acceptable_value_type]
    cases hv : member_type env (fun c => c.value_type) (remove_cv t) <;>
      cases he : member_type env (fun c => c.element_type) (remove_cv t) <;>
      cases hr : ReferenceType env (remove_cv t) <;>
      simp [List.filter]
  · intro v hv
    simp only [ValueType, acceptable_value_type] at hv
    cases hc : value_type env (remove_cv t) with
    | none => simp [hc] at hv
    | some c =>
        simp only [hc, Option.some_bind] at hv
        by_cases ho : is_object c = true
        · simp only [ho, if_true, Option.some.injEq] at hv
          rw [← hv]
          exact ho
        · simp [ho] at hv

/-- Witness for C3: class 4 of the example program declares value_type = int,
which is what ValueType resolves to, an object type. -/
theorem ValueType_resolution_witness :
    ValueType Example.env (cls 4) = some Ty.int ∧ is_object Ty.int = true :=
  ⟨by decide, (ValueType_resolution Example.env (cls 4)).2 Ty.int (by decide)⟩

/-- C4: for every type I and each level L among InputIterator,
ForwardIterator, BidirectionalIterator, RandomAccessIterator and
ContiguousIterator, if L(I) holds then IteratorCategory(I) is defined and is
the same as or derived from the tag of L; and a type whose category is a tag
strictly weaker than the tag of L (a proper base of it) never satisfies L. -/
theorem category_tag_of_level (env : Env) (i : Ty) :
    (∀ l : Tag, l ≠ .weak_input_iterator_tag → concept_of_tag l env i = true →
      ∃ c, IteratorCategory env i = some c ∧ Derived env c (tag l) = true) ∧
    (∀ l a : Tag, a ≠ l → l.derived a = true →
      IteratorCategory env i = some (tag a) → concept_of_tag l env i = false) := by
  constructor
  · intro l hl h
    exact category_derived_elim (concept_of_tag_category env i l hl h)
  · intro l a hne hla hcat
    have hweak : l ≠ .weak_input_iterator_tag := by
      intro hl
      subst hl
      cases a <;> first | exact hne rfl | exact absurd hla (by decide)
    cases hcon : concept_of_tag l env i with
    | false => rfl
    | true =>
        obtain ⟨c, hc, hd⟩ := category_derived_elim (concept_of_tag_category env i l hweak hcon)
        rw [hcat] at hc
        cases hc
        have hal : a.derived l = true := by
          simpa [Derived, remove_cv] using hd
        exact absurd (Tag.derived_antisymm a l hal hla) hne

/-- Witness for C4: int* satisfies ContiguousIterator and its category is
contiguous_iterator_tag; class 2 of the example program declares
forward_iterator_tag, a proper base of bidirectional_iterator_tag, and is not
a BidirectionalIterator (although it is a ForwardIterator). -/
theorem category_tag_of_level_witness :
    (∃ c, IteratorCategory Example.env (ptr Ty.int) = some c ∧
      Derived Example.env c (tag .contiguous_iterator_tag) = true) ∧
    ForwardIterator Example.env (cls 2) = true ∧
    BidirectionalIterator Example.env (cls 2) = false :=
  ⟨(category_tag_of_level Example.env (ptr Ty.int)).1 .contiguous_iterator_tag
      (by decide) (by decide),
    by decide,
    (category_tag_of_level Example.env (cls 2)).2 .bidirectional_iterator_tag
      .forward_iterator_tag (by decide) (by decide) (by decide)⟩

/-- C5 (as amended): DifferenceType is resolved by first match: the declared
difference_type if present, otherwise, for types other than std::nullptr_t and
void*, the result type of subtracting two values of T when that is
well-formed; the candidate has its reference and cv-qualifiers removed and is
rejected when void, without falling through; std::nullptr_t resolves to
ptrdiff_t and void* to nothing.  When defined, DifferenceType is never void. -/
theorem DifferenceType_resolution (env : Env) (t : Ty) :
    DifferenceType env t = DifferenceType_first_match env t ∧
      ∀ d, DifferenceType env t = some d → is_void d = false := by
  constructor
  · simp only [DifferenceType, DifferenceType_first_match, difference_type,
      select_specialization, difference_type_specializations, HasDifferenceType,
      subtraction_nonvoid, nvuncvref_t, nonvoid, Void]
    cases hm : member_type env (fun c => c.difference_type) t with
    | some d =>
        have h1 : t ≠ ptr void := by
          intro h
          subst h
          simp [member_type] at hm
        have h2 : t ≠ nullptr_t := by
          intro h
          subst h
          simp [member_type] at hm
        simp [h1, h2, List.filter]
    | none =>
        by_cases h1 : t = ptr void
        · simp [h1]
        · by_cases h2 : t = nullptr_t
          · have e2 : uncvref_t ptrdiff_t = ptrdiff_t := by decide
            have e3 : is_void ptrdiff_t = false := by decide
            simp [h2, e2, e3]
          · simp only [h1, h2, if_false]
            cases hs : minus_type env t with
            | none => simp [List.filter]
            | some d =>
                have hv : is_void t = false := by
                  cases hvt : is_void t with
                  | false => rfl
                  | true => rw [minus_type_void env t hvt] at hs; cases hs
                by_cases hd : is_void d = true
                · have hd2 : is_void (uncvref_t (remove_cv d)) = true := by
                    have : remove_cv d = void := by
                      unfold is_void at hd
                      split at hd
                      · assumption
                      · cases hd
                    simp [this, uncvref_t, remove_reference, remove_cv, is_void]
                  simp [List.filter, lvalue_ref, hv, hd, hd2]
                · simp [List.filter, lvalue_ref, hv, hd]
  · intro d hd
    simp only [DifferenceType, nvuncvref_t, nonvoid, Void] at hd
    cases hc : difference_type env t with
    | none => simp [hc] at hd
    | some c =>
        simp only [hc, Option.some_bind] at hd
        by_cases hv : is_void (uncvref_t c) = true
        · simp [hv] at hd
        · simp only [hv] at hd
          simp only [Bool.false_eq_true, if_false, Option.some.injEq] at hd
          rw [← hd]
          simpa using hv

/-- Witness for C5: class 6 of the example program declares
difference_type = const int; DifferenceType is int, which is not void. -/
theorem DifferenceType_resolution_witness :
    DifferenceType Example.env (cls 6) = some Ty.int ∧ is_void Ty.int = false :=
  ⟨by decide, (DifferenceType_resolution Example.env (cls 6)).2 Ty.int (by decide)⟩

/-- Counterexample for C5 as stated: a declared difference_type is not taken
as it is.  Class 6 declares const int and DifferenceType is int; class 5
declares void and DifferenceType is undefined although the declaration is
present; class 7 subtracts to int& and DifferenceType is int, reference
removed as well as cv-qualifiers. -/
theorem DifferenceType_as_claimed_counterexample :
    (DifferenceType_as_claimed Example.env (cls 6) = some (qual .c Ty.int) ∧
      DifferenceType Example.env (cls 6) = some Ty.int) ∧
    (DifferenceType_as_claimed Example.env (cls 5) = some void ∧
      DifferenceType Example.env (cls 5) = none) ∧
    (DifferenceType_as_claimed Example.env (cls 7) = some (lref Ty.int) ∧
      DifferenceType Example.env (cls 7) = some Ty.int) := by
  decide

/-- C6 (as amended): for every pointer type T*, IteratorCategory(T*) is
contiguous_iterator_tag; and ContiguousIterator(T*) holds for every complete
object type T that is not volatile-qualified, pointers modelling the
foundational concepts Semiregular, Regular, EqualityComparable and
TotallyOrdered. -/
theorem pointer_ContiguousIterator (env : Env) (t : Ty) :
    IteratorCategory env (ptr t) = some (tag .contiguous_iterator_tag) ∧
    (env.Semiregular (ptr t) = true → env.Regular (ptr t) = true →
      env.EqualityComparable (ptr t) = true →
      env.EqualityComparable2 (ptr t) (ptr t) = true →
      env.TotallyOrdered (ptr t) = true →
      is_object t = true → is_complete env t = true → is_volatile t = false →
      ContiguousIterator env (ptr t) = true) := by
  refine ⟨IteratorCategory_ptr env t, ?_⟩
  intro hS hR hE hE2 hT ho hcomp hv
  have hc : is_complete_object env t = true := by simp [is_complete_object, ho, hcomp]
  have hr := ReferenceType_ptr env t (is_void_of_is_object ho)
  have hx : random_access_types env (ptr t) ptrdiff_t =
      some { plus_assign := lref (ptr t), plus := ptr t, plus_reversed := ptr t,
             minus_assign := lref (ptr t), minus := ptr t, subscript := lref t } := by
    simp [random_access_types, remove_reference, remove_cv, is_const, hc, Ty.ptrdiff_t,
      is_integral]
  have hra : RandomAccessIterator env (ptr t) = true := by
    simp [RandomAccessIterator, pointer_BidirectionalIterator env t hS hE hc hv,
      category_derived_ptr, hT, pointer_SizedIteratorRange env t hS hR hE hE2 hc, is_void_ptr,
      DifferenceType_ptr env t hc, hx, lvalue_ref_ptr, hr, Same]
  simp [ContiguousIterator, hra, category_derived_ptr, hr, is_reference]

/-- Witness for C6: const int* in the example program. -/
theorem pointer_ContiguousIterator_witness :
    ContiguousIterator Example.env (ptr (qual .c Ty.int)) = true :=
  (pointer_ContiguousIterator Example.env (qual .c Ty.int)).2
    (by decide) (by decide) (by decide) (by decide) (by decide) (by decide) (by decide)
    (by decide)

/-- Counterexample for C6 as stated: volatile int is an object type, and
volatile int* models every foundational concept in the example program, but
it is not Readable, since *i is an lvalue of volatile int and does not convert
to const int&; hence it is not a ContiguousIterator.  A pointer to an
incomplete class (class 8) fails as well, having no pointer arithmetic. -/
theorem pointer_ContiguousIterator_counterexample :
    is_object (qual .v Ty.int) = true ∧
    Example.env.Semiregular (ptr (qual .v Ty.int)) = true ∧
    ValueType Example.env (ptr (qual .v Ty.int)) = some Ty.int ∧
    ReferenceType Example.env (ptr (qual .v Ty.int)) = some (lref (qual .v Ty.int)) ∧
    convertible Example.env (lref (qual .v Ty.int)) (lref (qual .c Ty.int)) = false ∧
    Readable Example.env (ptr (qual .v Ty.int)) = false ∧
    ContiguousIterator Example.env (ptr (qual .v Ty.int)) = false ∧
    is_object (cls 8) = true ∧
    pre_increment_type Example.env (ptr (cls 8)) = none ∧
    ContiguousIterator Example.env (ptr (cls 8)) = false := by
  decide

/-- C7: for every type I that satisfies Readable and whose ReferenceType is
swappable with itself, IndirectlySwappable(I, I) holds and the iter_swap2
overload selected for (I, I) is the direct swap, not the move through a
temporary. -/
theorem indirectly_swappable_self (env : Env) (i r : Ty)
    (hread : Readable env i = true)
    (href : ReferenceType env i = some r)
    (hswap : env.Swappable r r = true) :
    IndirectlySwappable env i i = true ∧
      iter_swap2_select env i i = some .direct_swap := by
  have hs : swappable_references env i i = true := by
    simp [swappable_references, href, hswap]
  have hsel := iter_swap2_select_direct env i i hread hread hs
  refine ⟨?_, hsel⟩
  simp [IndirectlySwappable, hread, hsel]

/-- Witness for C7: int* in the example program. -/
theorem indirectly_swappable_self_witness :
    IndirectlySwappable Example.env (ptr Ty.int) (ptr Ty.int) = true ∧
      iter_swap2_select Example.env (ptr Ty.int) (ptr Ty.int) = some .direct_swap :=
  indirectly_swappable_self Example.env (ptr Ty.int) (lref Ty.int)
    (by decide) (by decide) (by decide)

/-- C8, evaluated at the failing input: for R1 the minimal iterator class of
the example program, whose operator* is not noexcept, and R2 = long*, the
selected overload of iter_swap2 is the move through a temporary and its
noexcept flag is true, although iter_move(r1), the first operation of its
body, is not noexcept. -/
theorem iter_swap2_noexcept_ignores_iter_move :
    iter_swap2_select Example.env (cls 0) (ptr Ty.long) = some .move_through_temporary ∧
    iter_swap2_noexcept Example.env .move_through_temporary (cls 0) (ptr Ty.long) = true ∧
    deref_noexcept Example.env (cls 0) = false ∧
    iter_move_noexcept Example.env (cls 0) = false := by
  decide

/-- C9: for two raw pointers to a Movable value type T, the noexcept flag of
iter_swap2, computed through is_nothrow_swappable_v, swap and exchange, equals
(T is nothrow move constructible and T is nothrow assignable from an rvalue
T): true when neither can throw, false as soon as the assignment may throw.
The overload carrying that flag, the direct swap, is the one selected when
T* is Readable and T& is swappable with itself. -/
theorem iter_swap2_pointer_noexcept (env : Env) (t : Ty)
    (hm : env.Movable t = true) (hv : is_void t = false) :
    iter_swap2_noexcept env .direct_swap (ptr t) (ptr t) =
        (is_nothrow_move_constructible env t && env.is_nothrow_assignable (lref t) t) ∧
    (env.is_nothrow_assignable (lref t) t = false →
      iter_swap2_noexcept env .direct_swap (ptr t) (ptr t) = false) ∧
    (Readable env (ptr t) = true → env.Swappable (lref t) (lref t) = true →
      iter_swap2_select env (ptr t) (ptr t) = some .direct_swap) := by
  have hr := ReferenceType_ptr env t hv
  have hflag : iter_swap2_noexcept env .direct_swap (ptr t) (ptr t) =
      (is_nothrow_move_constructible env t && env.is_nothrow_assignable (lref t) t) := by
    simp only [iter_swap2_noexcept, hr, is_nothrow_swappable_v, swap_call, hm, swap_noexcept,
      exchange_noexcept]
    cases is_nothrow_move_constructible env t <;>
      cases env.is_nothrow_assignable (lref t) t <;> simp
  refine ⟨hflag, ?_, ?_⟩
  · intro ha
    rw [hflag, ha]
    simp
  · intro hread hs
    exact iter_swap2_select_direct env (ptr t) (ptr t) hread hread
      (by simp [swappable_references, hr, hs])

/-- Witness for C9: for int* in the example program the flag is true and the
direct swap is selected; for pointers to class 9, whose move assignment may
throw, the flag is false. -/
theorem iter_swap2_pointer_noexcept_witness :
    iter_swap2_noexcept Example.env .direct_swap (ptr Ty.int) (ptr Ty.int) = true ∧
    iter_swap2_select Example.env (ptr Ty.int) (ptr Ty.int) = some .direct_swap ∧
    iter_swap2_noexcept Example.env .direct_swap (ptr (cls 9)) (ptr (cls 9)) = false :=
  ⟨(iter_swap2_pointer_noexcept Example.env Ty.int (by decide) (by decide)).1.trans (by decide),
    (iter_swap2_pointer_noexcept Example.env Ty.int (by decide) (by decide)).2.2
      (by decide) (by decide),
    (iter_swap2_pointer_noexcept Example.env (cls 9) (by decide) (by decide)).2.1 (by decide)⟩

/-- C10 (as amended): a hand-built class that provides operator* returning
int&, operator++() returning itself by reference, operator++(int) returning a
copy and operator== (and is semiregular), and that declares, as its only
nested types, an integral difference_type and an iterator_category that is
input_iterator_tag or derived from it, satisfies InputIterator. -/
theorem minimal_iterator_InputIterator (env : Env) (k : Nat) (d c : Ty)
    (hS : env.Semiregular (cls k) = true)
    (hE : env.EqualityComparable (cls k) = true)
    (hderef : (env.classes k).deref = some (lref Ty.int))
    (hpre : (env.classes k).pre_increment = some (lref (cls k)))
    (hpost : (env.classes k).post_increment = some (cls k))
    (hvalue : (env.classes k).value_type = none)
    (helement : (env.classes k).element_type = none)
    (hdistance : (env.classes k).distance_type = none)
    (hdifference : (env.classes k).difference_type = some d)
    (hintegral : is_integral d = true)
    (hcategory : (env.classes k).iterator_category = some c)
    (hderived : Derived env c (tag .input_iterator_tag) = true) :
    InputIterator env (cls k) = true := by
  have hr : ReferenceType env (cls k) = some (lref Ty.int) := by
    simp [ReferenceType, deref_type, hderef]
  have hvt : ValueType env (cls k) = some Ty.int := by
    have e1 : is_object Ty.int = true := by decide
    have e2 : uncvref_t (lref Ty.int) = Ty.int := by decide
    have h1 : value_type env (cls k) = some Ty.int := by
      simp [value_type, select_specialization, value_type_specializations, HasValueType,
        HasElementType, HasReferenceType, member_type, hvalue, helement, hr, List.filter, e2]
    simp [ValueType, remove_cv, h1, acceptable_value_type, e1]
  have hrv : RvalueReferenceType env (cls k) = some (rref Ty.int) := by
    have e1 : is_void (cls k) = false := rfl
    have e2 : is_void Ty.int = false := by decide
    have e3 : is_function Ty.int = false := by decide
    simp [RvalueReferenceType, e1, iter_move_t, hr, remove_reference, e2, is_reference,
      call_decltype, e3]
  have hlr : lvalue_ref (cls k) = some (lref (cls k)) := rfl
  have hread : Readable env (cls k) = true := by
    have e1 : convertible env (lref Ty.int) (lref (add_const Ty.int)) = true := by
      simp [convertible, Ty.int, add_const, remove_reference, remove_cv, cv_le, is_const,
        is_volatile, is_lvalue]
    simp [Readable, hS, hlr, hvt, hr, hrv, e1]
  obtain ⟨s, r, hd⟩ := is_integral_elim hintegral
  have hdt : DifferenceType env (cls k) = some (integral s r) := by
    have h1 : difference_type env (cls k) = some d := by
      simp [difference_type, select_specialization, difference_type_specializations,
        HasDifferenceType, member_type, hdifference, List.filter]
    have h2 : nvuncvref_t d = some (integral s r) := by
      simp [nvuncvref_t, uncvref_t, remove_reference_of_is_integral hintegral, hd, nonvoid,
        Void, is_void, remove_cv]
    simp [DifferenceType, h1, h2]
  have hdist : DistanceType env (cls k) = some (integral false r) := by
    simp [DistanceType, distance_type, select_specialization, distance_type_specializations,
      HasDistanceType, member_type, hdistance, IntegralDifference, hdt, Integral, is_integral,
      remove_cv, make_unsigned, List.filter]
  have hpi : post_increment_type env (cls k) = some (cls k) := by
    simp [post_increment_type, post_step_type, remove_reference, remove_cv, hpost]
  have hwinc : WeaklyIncrementable env (cls k) = true := by
    simp [WeaklyIncrementable, hS, hlr, hdist, Integral, is_integral, remove_cv,
      pre_increment_type, pre_step_type, remove_reference, hpre, hpi, Same]
  have hweak : WeakIterator env (cls k) = true := by
    simp only [ReferenceType] at hr
    simp [WeakIterator, hwinc, hlr, hr, Void, is_void_lref]
  have hcat : IteratorCategory env (cls k) = some c := by
    simp [IteratorCategory, iterator_category, select_specialization,
      iterator_category_specializations, is_raw_pointer, member_type, hcategory, List.filter]
  have hwin : WeakInputIterator env (cls k) = true := by
    have e1 : is_void (cls k) = false := rfl
    simp [WeakInputIterator, hweak, hread, e1, hcat, hpi, hvt, Same,
      category_derived_well_formed]
  simp [InputIterator, hwin, Iterator, hweak, hE, category_derived, hcat, hderived]

/-- Witness for C10: class 1 of the example program, the minimal iterator
with difference_type = ptrdiff_t and iterator_category = input_iterator_tag. -/
theorem minimal_iterator_InputIterator_witness :
    InputIterator Example.env (cls 1) = true :=
  minimal_iterator_InputIterator Example.env 1 Ty.ptrdiff_t (tag .input_iterator_tag)
    (by decide) (by decide) (by decide) (by decide) (by decide) (by decide) (by decide)
    (by decide) (by decide) (by decide) (by decide) (by decide)

/-- Counterexample for C10 as stated: class 0 of the example program is the
minimal hand-built type, semiregular and equality comparable, with exactly
operator* returning int&, operator++() returning itself by reference and
operator++(int) returning a copy, and no nested type.  It has no DistanceType
and no IteratorCategory, so it is neither WeaklyIncrementable nor a
WeakInputIterator, and InputIterator does not hold. -/
theorem minimal_iterator_InputIterator_counterexample :
    Example.env.Semiregular (cls 0) = true ∧
    Example.env.EqualityComparable (cls 0) = true ∧
    ReferenceType Example.env (cls 0) = some (lref Ty.int) ∧
    pre_increment_type Example.env (cls 0) = some (lref (cls 0)) ∧
    post_increment_type Example.env (cls 0) = some (cls 0) ∧
    Readable Example.env (cls 0) = true ∧
    DistanceType Example.env (cls 0) = none ∧
    IteratorCategory Example.env (cls 0) = none ∧
    WeaklyIncrementable Example.env (cls 0) = false ∧
    WeakInputIterator Example.env (cls 0) = false ∧
    InputIterator Example.env (cls 0) = false := by
  decide

/-- C11: for every type I whose postfix increment does not return exactly I by
value (for instance void), Incrementable(I) is false, and therefore
ForwardIterator(I), BidirectionalIterator(I), RandomAccessIterator(I) and
ContiguousIterator(I) are all false, whatever else I provides. -/
theorem not_Incrementable_of_post_increment (env : Env) (i : Ty)
    (h : post_increment_type env i ≠ some i) :
    Incrementable env i = false ∧ ForwardIterator env i = false ∧
      BidirectionalIterator env i = false ∧ RandomAccessIterator env i = false ∧
      ContiguousIterator env i = false := by
  have hinc : Incrementable env i = false := by
    cases hp : post_increment_type env i with
    | none => simp [Incrementable, hp]
    | some t =>
        have hne : i ≠ t := by
          intro e
          rw [hp, e] at h
          exact h rfl
        simp [Incrementable, hp, Same, hne]
  have hf : ForwardIterator env i = false := by simp [ForwardIterator, hinc]
  have hb : BidirectionalIterator env i = false := by simp [BidirectionalIterator, hf]
  have hr : RandomAccessIterator env i = false := by simp [RandomAccessIterator, hb]
  have hc : ContiguousIterator env i = false := by simp [ContiguousIterator, hr]
  exact ⟨hinc, hf, hb, hr, hc⟩

/-- Witness for C11: class 10 of the example program declares
forward_iterator_tag and everything class 2 has, but its operator++(int)
returns void. -/
theorem not_Incrementable_of_post_increment_witness :
    post_increment_type Example.env (cls 10) = some void ∧
    WeakIterator Example.env (cls 10) = true ∧
    ForwardIterator Example.env (cls 2) = true ∧
    (Incrementable Example.env (cls 10) = false ∧
      ForwardIterator Example.env (cls 10) = false ∧
      BidirectionalIterator Example.env (cls 10) = false ∧
      RandomAccessIterator Example.env (cls 10) = false ∧
      ContiguousIterator Example.env (cls 10) = false) :=
  ⟨by decide, by decide, by decide,
    not_Incrementable_of_post_increment Example.env (cls 10) (by decide)⟩

/-- C12: trait resolution is never ambiguous.  For every type T and each of
the traits value_type, difference_type, distance_type and iterator_category,
the constraints of the partial specialisations are pairwise exclusive, so at
most one rule applies; and when a rule applies the trait resolves to the
member type of that rule (and has no member type otherwise). -/
theorem trait_resolution_unambiguous (env : Env) (t : Ty) :
    (pairwise_exclusive (value_type_specializations env t) ∧
      pairwise_exclusive (difference_type_specializations env t) ∧
      pairwise_exclusive (distance_type_specializations env t) ∧
      pairwise_exclusive (iterator_category_specializations env t)) ∧
    (∀ s ∈ value_type_specializations env t, s.1 = true → value_type env t = s.2) ∧
    (∀ s ∈ difference_type_specializations env t, s.1 = true →
      difference_type env t = s.2) ∧
    (∀ s ∈ distance_type_specializations env t, s.1 = true → distance_type env t = s.2) ∧
    (∀ s ∈ iterator_category_specializations env t, s.1 = true →
      iterator_category env t = s.2) := by
  refine ⟨⟨value_type_guards env t, difference_type_guards env t,
    distance_type_guards env t, iterator_category_guards env t⟩, ?_, ?_, ?_, ?_⟩
  · exact select_specialization_three _ _ _ (value_type_guards env t)
  · intro s hs h1
    have hsel := select_specialization_two _ _ (difference_type_guards env t) s hs h1
    have hm : ∀ u, (u = ptr void ∨ u = nullptr_t) →
        ∀ x ∈ difference_type_specializations env u, x.1 = false := by
      intro u hu x hx
      rcases hu with rfl | rfl <;>
        simp [difference_type_specializations, HasDifferenceType, member_type,
          subtraction_nonvoid, minus_type, is_complete_object, is_object, is_void,
          is_function, remove_cv, is_reference] at hx <;>
        rcases hx with rfl | rfl <;> rfl
    by_cases h1v : t = ptr void
    · rw [hm t (Or.inl h1v) s hs] at h1
      cases h1
    · by_cases h2 : t = nullptr_t
      · rw [hm t (Or.inr h2) s hs] at h1
        cases h1
      · simpa [difference_type, h1v, h2] using hsel
  · exact select_specialization_two _ _ (distance_type_guards env t)
  · exact select_specialization_two _ _ (iterator_category_guards env t)

/-- Witness for C12: class 3 of the example program declares value_type and
element_type; only the value_type rule applies and value_type is its member
type (void). -/
theorem trait_resolution_unambiguous_witness :
    HasElementType Example.env (cls 3) = true ∧
    value_type Example.env (cls 3) = some void :=
  ⟨by decide,
    (trait_resolution_unambiguous Example.env (cls 3)).2.1
      (HasValueType Example.env (cls 3),
        member_type Example.env (fun c => c.value_type) (cls 3))
      (by simp [value_type_specializations]) (by decide)⟩

/-- C13: an undefined trait makes every predicate that depends on it false.
For every type I: if ValueType(I) is undefined then Readable(I) is false; if
DistanceType(I) is undefined then WeaklyIncrementable(I), WeakIterator(I) and
every iterator category predicate are false; if IteratorCategory(I) is
undefined then WeakInputIterator(I) is false; if DifferenceType(I) is undefined
then SizedIteratorRange(I, S) is false for every S. -/
theorem undefined_trait_falsifies (env : Env) (i : Ty) :
    (ValueType env i = none → Readable env i = false) ∧
    (DistanceType env i = none →
      WeaklyIncrementable env i = false ∧ WeakIterator env i = false ∧
      Iterator env i = false ∧ WeakInputIterator env i = false ∧
      InputIterator env i = false ∧ ForwardIterator env i = false ∧
      BidirectionalIterator env i = false ∧ RandomAccessIterator env i = false ∧
      ContiguousIterator env i = false) ∧
    (IteratorCategory env i = none → WeakInputIterator env i = false) ∧
    (DifferenceType env i = none → ∀ s, SizedIteratorRange env i s = false) := by
  refine ⟨?_, ?_, ?_, ?_⟩
  · intro h
    simp [Readable, h]
  · intro h
    have h1 : WeaklyIncrementable env i = false := by simp [WeaklyIncrementable, h]
    have h2 : WeakIterator env i = false := by simp [WeakIterator, h1]
    have h3 : Iterator env i = false := by simp [Iterator, h2]
    have h4 : WeakInputIterator env i = false := by simp [WeakInputIterator, h2]
    have h5 : InputIterator env i = false := by simp [InputIterator, h4]
    have h6 : ForwardIterator env i = false := by simp [ForwardIterator, h5]
    have h7 : BidirectionalIterator env i = false := by simp [BidirectionalIterator, h6]
    have h8 : RandomAccessIterator env i = false := by simp [RandomAccessIterator, h7]
    have h9 : ContiguousIterator env i = false := by simp [ContiguousIterator, h8]
    exact ⟨h1, h2, h3, h4, h5, h6, h7, h8, h9⟩
  · intro h
    simp [WeakInputIterator, h]
  · intro h s
    simp [SizedIteratorRange, h]

/-- Witness for C13: class 3 of the example program has no ValueType (its
value_type is void) and is not Readable; class 0, the minimal iterator, has no
DistanceType, IteratorCategory or DifferenceType. -/
theorem undefined_trait_falsifies_witness :
    Readable Example.env (cls 3) = false ∧
    WeaklyIncrementable Example.env (cls 0) = false ∧
    WeakInputIterator Example.env (cls 0) = false ∧
    SizedIteratorRange Example.env (cls 0) (cls 0) = false :=
  ⟨(undefined_trait_falsifies Example.env (cls 3)).1 (by decide),
    ((undefined_trait_falsifies Example.env (cls 0)).2.1 (by decide)).1,
    (undefined_trait_falsifies Example.env (cls 0)).2.2.1 (by decide),
    (undefined_trait_falsifies Example.env (cls 0)).2.2.2 (by decide) (cls 0)⟩

/-- C14, evaluated at the failing input: class 11 of the example program is the
minimal iterator with an integral difference_type whose iterator_category is
class 12, an empty class that is neither weak_input_iterator_tag nor derived
from it; it satisfies WeakInputIterator all the same, line 350 asking only for
a well-formed expression.  InputIterator, where the constraint is a conjunct,
rejects it. -/
theorem WeakInputIterator_ignores_category :
    IteratorCategory Example.env (cls 11) = some (cls 12) ∧
    Derived Example.env (cls 12) (tag .weak_input_iterator_tag) = false ∧
    WeakInputIterator Example.env (cls 11) = true ∧
    InputIterator Example.env (cls 11) = false := by
  decide

/-- C15: for every type T, DistanceType(T) is the declared distance_type if
present; otherwise, when DifferenceType(T) is defined and integral, the
unsigned counterpart of DifferenceType(T); otherwise undefined. -/
theorem DistanceType_resolution (env : Env) (t : Ty) :
    DistanceType env t = DistanceType_first_match env t := by
  simp only [DistanceType, DistanceType_first_match, distance_type, select_specialization,
    distance_type_specializations, HasDistanceType, IntegralDifference, Integral]
  cases hm : member_type env (fun c => c.distance_type) t with
  | some d => simp [List.filter]
  | none =>
      cases hd : DifferenceType env t with
      | none => simp [List.filter]
      | some d =>
          cases hi : is_integral d <;> simp [List.filter, hi]

/-- C16: for every type T, IteratorCategory(T) is contiguous_iterator_tag when
T is a raw pointer type; otherwise the declared iterator_category if present;
otherwise undefined. -/
theorem IteratorCategory_resolution (env : Env) (t : Ty) :
    IteratorCategory env t = IteratorCategory_first_match env t := by
  simp only [IteratorCategory, IteratorCategory_first_match, iterator_category,
    select_specialization, iterator_category_specializations]
  cases t with
  | ptr u => simp [is_raw_pointer, member_type, List.filter]
  | cls n =>
      cases hm : member_type env (fun c => c.iterator_category) (cls n) <;>
        simp [is_raw_pointer, List.filter, hm]
  | qual q u =>
      cases hm : member_type env (fun c => c.iterator_category) (qual q u) <;>
        simp [is_raw_pointer, List.filter, hm]
  | _ => simp [is_raw_pointer, member_type, List.filter]

/-- C17 (as amended): the move-through-temporary overload of iter_swap2
exchanges the two referenced values up to the conversions of its three
statements.  For every store and every two slots r1, r2 (distinct or the
same), after iter_swap2(r1, r2) the slot of r2 holds the value the slot of r1
held before, converted to ValueType(R1) and then to the type of the slot of r2;
when r1 and r2 are distinct the slot of r1 holds the value the slot of r2 held
before, converted to the type of the slot of r1; every other slot is unchanged.
When the conversions are the identity (the two slots have one value type) the
slot of r1 holds the value the slot of r2 held before and the slot of r2 the
value the slot of r1 held before. -/
theorem iter_swap2_move_through_temporary_exchanges {σ α : Type} [DecidableEq σ]
    (m : MoveSemantics α) (c : IterSwapConversions α) (s : Store σ α) (r1 r2 : σ) :
    iter_swap2_move_through_temporary m c s r1 r2 r2 = c.to_second (c.to_value (s r1)) ∧
    (r1 ≠ r2 → iter_swap2_move_through_temporary m c s r1 r2 r1 = c.to_first (s r2)) ∧
    (∀ k, k ≠ r1 → k ≠ r2 → iter_swap2_move_through_temporary m c s r1 r2 k = s k) ∧
    ((∀ v, c.to_value v = v) → (∀ v, c.to_first v = v) → (∀ v, c.to_second v = v) →
      iter_swap2_move_through_temporary m c s r1 r2 r1 = s r2 ∧
      iter_swap2_move_through_temporary m c s r1 r2 r2 = s r1) := by
  refine ⟨?_, ?_, ?_, ?_⟩
  · rw [iter_swap2_move_through_temporary_apply]
    simp
  · intro h
    rw [iter_swap2_move_through_temporary_apply]
    simp [h]
  · intro k h1 h2
    rw [iter_swap2_move_through_temporary_apply]
    simp [h1, h2]
  · intro hv hf hs
    rw [iter_swap2_move_through_temporary_apply, iter_swap2_move_through_temporary_apply]
    by_cases h : r1 = r2
    · simp [h, hv, hs]
    · simp [h, hv, hf, hs]

/-- Witness for C17: in the example store, objects 1 and 2 hold 11 and 21;
after the move-through-temporary iter_swap2 between iterators of one value
type they hold 21 and 11, object 3 is unchanged, and swapping object 1 with
itself leaves it at 11 although a moved-from object holds 0. -/
theorem iter_swap2_move_through_temporary_exchanges_witness :
    (iter_swap2_move_through_temporary Example.emptying Example.same_type Example.store 1 2 1
        = 21 ∧
      iter_swap2_move_through_temporary Example.emptying Example.same_type Example.store 1 2 2
        = 11) ∧
    iter_swap2_move_through_temporary Example.emptying Example.same_type Example.store 1 2 1
      = 21 ∧
    iter_swap2_move_through_temporary Example.emptying Example.same_type Example.store 1 2 3
      = 31 ∧
    (iter_swap2_move_through_temporary Example.emptying Example.same_type Example.store 1 1 1
        = 11 ∧
      iter_swap2_move_through_temporary Example.emptying Example.same_type Example.store 1 1 1
        = 11) :=
  ⟨(iter_swap2_move_through_temporary_exchanges Example.emptying Example.same_type
      Example.store 1 2).2.2.2 (fun _ => rfl) (fun _ => rfl) (fun _ => rfl),
    (iter_swap2_move_through_temporary_exchanges Example.emptying Example.same_type
      Example.store 1 2).2.1 (by decide),
    (iter_swap2_move_through_temporary_exchanges Example.emptying Example.same_type
      Example.store 1 2).2.2.1 3 (by decide) (by decide),
    (iter_swap2_move_through_temporary_exchanges Example.emptying Example.same_type
      Example.store 1 1).2.2.2 (fun _ => rfl) (fun _ => rfl) (fun _ => rfl)⟩

/-- Counterexample for C17 as stated: for r1 an unsigned* and r2 an
unsigned long* the overload selected is the move through a temporary; with the
slot of r1 holding 7 and the slot of r2 holding 2^40, afterwards the slot of r2
holds 7 but the slot of r1 holds 0, the value 2^40 converted to unsigned, and
not the value the slot of r2 held before. -/
theorem iter_swap2_move_through_temporary_counterexample :
    iter_swap2_select Example.env (ptr (integral false 2)) (ptr (integral false 3))
      = some .move_through_temporary ∧
    Example.mixed_store 1 = 7 ∧
    Example.mixed_store 2 = 1099511627776 ∧
    iter_swap2_move_through_temporary Example.copying Example.unsigned_and_long
      Example.mixed_store 1 2 1 = 0 ∧
    iter_swap2_move_through_temporary Example.copying Example.unsigned_and_long
      Example.mixed_store 1 2 2 = 7 := by
  decide

/-- C18: for every Movable T and all objects a, b: after swap(a, b),
implemented as b = exchange(a, move(b)), a holds the former value of b and b
holds the former value of a (every other object is unchanged); applying swap
twice restores the original store. -/
theorem swap_exchanges_and_involutive {σ α : Type} [DecidableEq σ]
    (m : MoveSemantics α) (s : Store σ α) (a b : σ) :
    swap m s a b a = s b ∧ swap m s a b b = s a ∧
    (∀ k, k ≠ a → k ≠ b → swap m s a b k = s k) ∧
    swap m (swap m s a b) a b = s := by
  refine ⟨?_, ?_, ?_, ?_⟩
  · rw [swap_apply]
    simp
  · rw [swap_apply]
    by_cases h : b = a
    · simp [h]
    · simp [h]
  · intro k h1 h2
    rw [swap_apply]
    simp [h1, h2]
  · funext k
    simp only [swap_apply]
    by_cases hka : k = a <;> by_cases hkb : k = b <;> by_cases hba : b = a <;>
      simp_all

/-- Witness for C18: swapping objects 1 and 2 of the example store. -/
theorem swap_exchanges_and_involutive_witness :
    swap Example.emptying Example.store 1 2 1 = 21 ∧
    swap Example.emptying Example.store 1 2 2 = 11 ∧
    swap Example.emptying Example.store 1 2 3 = 31 :=
  ⟨(swap_exchanges_and_involutive Example.emptying Example.store 1 2).1,
    (swap_exchanges_and_involutive Example.emptying Example.store 1 2).2.1,
    (swap_exchanges_and_involutive Example.emptying Example.store 1 2).2.2.1 3
      (by decide) (by decide)⟩

/-- C19 (as amended): for every t and u, exchange(t, u) returns the value t
held before the call; when u is an object other than t (forwarded as an rvalue
or as an lvalue), it leaves t holding the value of u converted to T, which is
the value of u itself when the conversion is the identity (U is T); an lvalue u
keeps its value and no other object changes. -/
theorem exchange_returns_old_value {σ α : Type} [DecidableEq σ]
    (m : MoveSemantics α) (convert : α → α) (s : Store σ α) (t u : σ) (u_is_rvalue : Bool) :
    (exchange m convert s t u u_is_rvalue).1 = s t ∧
    (u ≠ t → (exchange m convert s t u u_is_rvalue).2 t = convert (s u)) ∧
    (u ≠ t → (∀ v, convert v = v) → (exchange m convert s t u u_is_rvalue).2 t = s u) ∧
    (u ≠ t → (exchange m convert s t u false).2 u = s u) ∧
    (∀ k, k ≠ t → k ≠ u → (exchange m convert s t u u_is_rvalue).2 k = s k) := by
  have hconv : u ≠ t → (exchange m convert s t u u_is_rvalue).2 t = convert (s u) := by
    intro h
    have h2 : t ≠ u := fun e => h e.symm
    cases u_is_rvalue <;>
      simp [exchange, move_construct, move_assign, copy_assign, Store.write, h, h2]
  refine ⟨rfl, hconv, ?_, ?_, ?_⟩
  · intro h hid
    rw [hconv h, hid]
  · intro h
    simp [exchange, move_construct, copy_assign, Store.write, h]
  · intro k h1 h2
    cases u_is_rvalue <;>
      simp [exchange, move_construct, move_assign, copy_assign, Store.write, h1, h2]

/-- Witness for C19: exchange(object 1, object 2) between objects of one type
in the example store returns 11 and leaves object 1 holding 21. -/
theorem exchange_returns_old_value_witness :
    (exchange Example.emptying (fun v => v) Example.store 1 2 true).1 = 11 ∧
    (exchange Example.emptying (fun v => v) Example.store 1 2 true).2 1 = 21 ∧
    (exchange Example.emptying (fun v => v) Example.store 1 2 true).2 1 = 21 ∧
    (exchange Example.emptying (fun v => v) Example.store 1 2 false).2 2 = 21 ∧
    (exchange Example.emptying (fun v => v) Example.store 1 2 true).2 3 = 31 :=
  ⟨(exchange_returns_old_value Example.emptying (fun v => v) Example.store 1 2 true).1,
    (exchange_returns_old_value Example.emptying (fun v => v) Example.store 1 2 true).2.1
      (by decide),
    (exchange_returns_old_value Example.emptying (fun v => v) Example.store 1 2 true).2.2.1
      (by decide) (fun _ => rfl),
    (exchange_returns_old_value Example.emptying (fun v => v) Example.store 1 2 true).2.2.2.1
      (by decide),
    (exchange_returns_old_value Example.emptying (fun v => v) Example.store 1 2 true).2.2.2.2 3
      (by decide) (by decide)⟩

/-- Counterexample for C19 as stated.  When u is t itself, exchange(t, t) in
the example store, where a moved-from object holds 0, returns 11 and leaves t
holding 0, not the 11 that u held.  When U is not T, exchange(t, u) for an
unsigned t holding 7 and an unsigned long u holding 2^32 + 5 returns 7 and
leaves t holding 5. -/
theorem exchange_returns_old_value_counterexample :
    (Example.store 1 = 11 ∧
      (exchange Example.emptying (fun v => v) Example.store 1 1 false).1 = 11 ∧
      (exchange Example.emptying (fun v => v) Example.store 1 1 false).2 1 = 0) ∧
    (Example.mixed_store 3 = 4294967301 ∧
      (exchange Example.copying Example.to_unsigned Example.mixed_store 1 3 false).1 = 7 ∧
      (exchange Example.copying Example.to_unsigned Example.mixed_store 1 3 false).2 1 = 5) := by
  decide

end stl2
